import Mathlib

/-!
Verification of the Flow Orchestration Engine (router service) of the
teacher repository, shallowly embedded from `src/route.py`.

Conventions of the embedding:
* Python strings are Lean `String`s (ASCII semantics for lower-casing,
  whitespace and character classes, which is what the router manipulates).
* Python JSON-ish values (dicts read from `request.json`, message payloads)
  are modelled by the inductive `JVal`; `dict.get(k)` returning `None` for a
  missing key is `jGetD`, Python truthiness is `jTruthy`, and `a or b` is
  `pyOr`.
* Wall-clock time (`_now_ms`), random ids (`_make_id`, tokens) and the
  external Audio Capture Service / Rule Store collaborators are passed in as
  explicit parameters, so every function is a pure state transformer.
* `_log_event` is modelled as appending a `(event, level)` entry to a trace;
  the per-run persisted log (`_append_run_event` / `_flush_run_to_disk`) is
  modelled separately with an explicit file-operation trace.
-/

set_option maxHeartbeats 1000000
set_option maxRecDepth 4000

/-! ## Python string primitives -/

/-- ASCII whitespace as stripped by Python `str.strip()` and matched by
regex `\s` (space, tab, newline, carriage return, vertical tab, form feed). -/
def pyIsSpace (c : Char) : Bool :=
  c == ' ' || c == '\t' || c == '\n' || c == '\r' || c == '\x0b' || c == '\x0c'

/-- Drop trailing characters satisfying `p`. -/
def dropTrailing (p : Char → Bool) (l : List Char) : List Char :=
  (l.reverse.dropWhile p).reverse

/-- Python `str.strip()` on a character list. -/
def pyStripChars (l : List Char) : List Char :=
  dropTrailing pyIsSpace (l.dropWhile pyIsSpace)

/-- Python `str.strip()`. -/
def pyStrip (s : String) : String :=
  String.mk (pyStripChars s.data)

/-- Python `str.lower()` (ASCII). -/
def pyLowerStr (s : String) : String :=
  String.mk (s.data.map Char.toLower)

/-- Characters kept by regex class `[a-z0-9]` (route.py applies it to
already lower-cased text). -/
def isLowerAlnum (c : Char) : Bool :=
  c.isLower || c.isDigit

/-- The fixed punctuation/whitespace symbol set of `_looks_like_noise`:
regex class `[.?!,\-_/\\*~\s]`. -/
def isNoiseSymbol (c : Char) : Bool :=
  c == '.' || c == '?' || c == '!' || c == ',' || c == '-' || c == '_' ||
  c == '/' || c == '\\' || c == '*' || c == '~' || pyIsSpace c

/-! ## JSON-ish Python values -/

/-- Model of the dynamic JSON-ish values the router passes around. -/
inductive JVal where
  | null : JVal
  | bool (b : Bool) : JVal
  | num (n : Int) : JVal
  | str (s : String) : JVal
  | arr (xs : List JVal) : JVal
  | obj (fields : List (String × JVal)) : JVal
deriving Repr

/-- First-match association-list lookup (Python dicts have unique keys, so
this is dict lookup). -/
def alist_get {α : Type} (l : List (String × α)) (k : String) : Option α :=
  match l with
  | [] => none
  | p :: rest => if p.1 = k then some p.2 else alist_get rest k

/-- Update the value at key `k` in place, or append the binding at the end
(Python `d[k] = v`: dicts preserve insertion order and append new keys). -/
def alist_set {α : Type} (l : List (String × α)) (k : String) (v : α) :
    List (String × α) :=
  match l with
  | [] => [(k, v)]
  | p :: rest => if p.1 = k then (k, v) :: rest else p :: alist_set rest k v

/-- Python dict `.get(k)` with the `None` default, on a `JVal` object.
(The router only calls `.get` on values it has checked to be dicts.) -/
def jGetD (v : JVal) (k : String) : JVal :=
  match v with
  | .obj fs => (alist_get fs k).getD .null
  | _ => .null

/-- Python truthiness of a JSON-ish value. -/
def jTruthy : JVal → Bool
  | .null => false
  | .bool b => b
  | .num n => n != 0
  | .str s => s != ""
  | .arr xs => !xs.isEmpty
  | .obj fs => !fs.isEmpty

/-- Python `a or b`. -/
def pyOr (a b : JVal) : JVal :=
  if jTruthy a then a else b

/-- Python `v is None` on a JSON-ish value. -/
def jIsNull : JVal → Bool
  | .null => true
  | _ => false

/-- Fuel-bounded Python `repr` of a JSON-ish value (string quoting is not
escaped; the router never renders containers on any path a claim touches). -/
def pyReprFuel : Nat → JVal → String
  | 0, _ => ""
  | _ + 1, .null => "None"
  | _ + 1, .bool true => "True"
  | _ + 1, .bool false => "False"
  | _ + 1, .num n => toString n
  | _ + 1, .str s => "'" ++ s ++ "'"
  | fuel + 1, .arr xs =>
      "[" ++ String.intercalate ", " (xs.map (pyReprFuel fuel)) ++ "]"
  | fuel + 1, .obj fs =>
      "\x7b" ++
        String.intercalate ", "
          (fs.map (fun p => "'" ++ p.1 ++ "': " ++ pyReprFuel fuel p.2)) ++
      "\x7d"

/-- Python `str(v)`. -/
def pyStr (v : JVal) : String :=
  match v with
  | .null => "None"
  | .bool true => "True"
  | .bool false => "False"
  | .num n => toString n
  | .str s => s
  | .arr xs => pyReprFuel 1000 (.arr xs)
  | .obj fs => pyReprFuel 1000 (.obj fs)

/-! ## The noise classifier (`_looks_like_noise`, route.py lines 611-629) -/

/-- `_looks_like_noise(text)`: strip and lower-case; empty or length < 2 is
noise; an empty `[a-z0-9]` core is noise; a core of one repeated character
with length at least 5 is noise; text made only of the fixed symbol set is
noise. -/
def looksLikeNoise (text : String) : Bool :=
  let t := (pyStripChars text.data).map Char.toLower
  if t.isEmpty then true
  else if t.length < 2 then true
  else
    let core := t.filter isLowerAlnum
    match core with
    | [] => true
    | c :: rest =>
      if (rest.all (fun d => d == c)) ∧ 5 ≤ (c :: rest).length then true
      else if t.all isNoiseSymbol then true
      else false

/-! ## Run-id normalization (`_safe_run_id`, `_next_auto_run_id`,
`_scan_next_log_index`, route.py lines 103-129 and 632-644) -/

/-- Decimal digits to a natural number. -/
def digitsToNat (ds : List Char) : Nat :=
  ds.foldl (fun n c => n * 10 + (c.toNat - 48)) 0

/-- `re.match(r"^log(\d+)(?:[\.-]|$)", name, re.IGNORECASE)`: parse the index
of a persisted run file name. -/
def parseLogIndex (name : String) : Option Nat :=
  match name.data.map Char.toLower with
  | 'l' :: 'o' :: 'g' :: rest =>
    let ds := rest.takeWhile Char.isDigit
    if ds.isEmpty then none
    else
      match rest.drop ds.length with
      | [] => some (digitsToNat ds)
      | c :: _ => if c == '.' || c == '-' then some (digitsToNat ds) else none
  | _ => none

/-- `_scan_next_log_index()`: one past the highest index among the files of
the logs directory (0 if none parse). -/
def scanNextLogIndex (files : List String) : Nat :=
  (files.foldl
    (fun m name =>
      match parseLogIndex name with
      | some idx => if idx > m then idx else m
      | none => m)
    0) + 1

/-- State behind `_next_auto_run_id` / `_safe_run_id`: the (read-only) file
listing of the logs directory, the legacy-id memo map and the in-memory
counter (`None` until first use). -/
structure RunIdState where
  logFiles : List String
  legacyMap : List (String × String)
  nextIdx : Option Nat

/-- `_next_auto_run_id()`: initialize the counter from the directory scan on
first use, then hand out `log{n}` and bump the counter in memory. -/
def nextAutoRunId (st : RunIdState) : String × RunIdState :=
  let idx :=
    match st.nextIdx with
    | some i => i
    | none => scanNextLogIndex st.logFiles
  ("log" ++ toString idx, { st with nextIdx := some (idx + 1) })

/-- `rid.lower().startswith("kickstart")`. -/
def kickstartPrefixed (rid : String) : Bool :=
  List.isPrefixOf "kickstart".data (rid.data.map Char.toLower)

/-- `_safe_run_id(run_id)` on the raw JSON value: trimmed non-reserved ids
pass through; reserved (`kickstart*`) ids are memoized to fresh sequential
ids; missing ids get fresh sequential ids. -/
def safeRunId (st : RunIdState) (v : JVal) : String × RunIdState :=
  let rid := pyStrip (pyStr (pyOr v (.str "")))
  if rid ≠ "" ∧ kickstartPrefixed rid = false then (rid, st)
  else if rid ≠ "" then
    match alist_get st.legacyMap rid with
    | some mapped => (mapped, st)
    | none =>
      let r := nextAutoRunId st
      (r.1, { r.2 with legacyMap := r.2.legacyMap ++ [(rid, r.1)] })
  else nextAutoRunId st

/-! ## Pipeline segments (`_pipeline_upsert_segment`, route.py lines 560-598) -/

/-- One pipeline segment row (the dict created by `_pipeline_upsert_segment`).
Fields that Python only ever fills with strings of a fixed alphabet are
`String`; fields carrying arbitrary message-derived values are `JVal`. -/
structure Segment where
  segment_id : String
  created_ts : Nat
  updated_ts : Nat
  flow_run_id : JVal
  text : JVal
  audio_ref : JVal
  status : String
  source_role : JVal
  source_page : JVal
  injected : Bool
  sent_status : JVal

/-- The freshly created row of `_pipeline_upsert_segment`. -/
def initSegment (sid : String) (now : Nat) : Segment :=
  ⟨sid, now, now, .null, .null, .null, "created", .null, .null, false, .null⟩

/-- The keyword updates passed to `_pipeline_upsert_segment`; a `.null` /
`none` entry models an argument that is `None` (skipped by the
`if v is not None` loop). -/
structure SegmentUpdates where
  flow_run_id : JVal
  text : JVal
  audio_ref : JVal
  status : Option String
  source_role : JVal
  source_page : JVal
  injected : Option Bool
  sent_status : JVal

/-- No updates. -/
def noUpdates : SegmentUpdates :=
  ⟨.null, .null, .null, none, .null, .null, none, .null⟩

/-- `if v is not None: row[k] = v` for a `JVal`-valued field. -/
def jUpd (new old : JVal) : JVal :=
  match new with
  | .null => old
  | v => v

/-- Apply the non-`None` updates to a row and refresh `updated_ts`. -/
def applySegmentUpdates (row : Segment) (u : SegmentUpdates) (now : Nat) :
    Segment :=
  { row with
    flow_run_id := jUpd u.flow_run_id row.flow_run_id
    text := jUpd u.text row.text
    audio_ref := jUpd u.audio_ref row.audio_ref
    status := u.status.getD row.status
    source_role := jUpd u.source_role row.source_role
    source_page := jUpd u.source_page row.source_page
    injected := u.injected.getD row.injected
    sent_status := jUpd u.sent_status row.sent_status
    updated_ts := now }

/-- The `_pipeline_last_ids` side index (keys `captured`, `transcribed`,
`sent`, `dropped`). -/
structure LastIds where
  captured : Option String
  transcribed : Option String
  sent : Option String
  dropped : Option String

/-- `if status in _pipeline_last_ids: _pipeline_last_ids[status] = sid`. -/
def LastIds.setStatus (l : LastIds) (status sid : String) : LastIds :=
  if status = "captured" then { l with captured := some sid }
  else if status = "transcribed" then { l with transcribed := some sid }
  else if status = "sent" then { l with sent := some sid }
  else if status = "dropped" then { l with dropped := some sid }
  else l

/-- The two `_pipeline_last_ids` updates at the end of
`_pipeline_upsert_segment` (first from `status`, then from `sent_status`
when it is one of the tracked keys). -/
def lastIdsAfter (l : LastIds) (row : Segment) (sid : String) : LastIds :=
  let l1 := l.setStatus row.status sid
  match row.sent_status with
  | .str s => l1.setStatus s sid
  | _ => l1

/-! ## Router state -/

/-- A mailbox entry: `{"from": sender, "message": message_obj}`.  The Python
key `from` is the field `sender` here (`from` is a Lean keyword). -/
structure Envelope where
  sender : JVal
  message : JVal

/-- A structured log entry as far as the claims observe it: event name and
level (`_log_event(event, data, level)`). -/
structure LogEvent where
  event : String
  level : String
deriving DecidableEq

/-- Mutable module state of route.py used by the message pipeline: the four
role mailboxes, the pipeline segment table (association list in insertion
order, mirroring `_pipeline_segments_by_id` + `_pipeline_segment_order`),
the `_pipeline_last_ids` index, the emitted event trace, and the run-id
state.  (The 5000-entry global ring-buffer cap of `_event_log` is not
modelled; `events` records emissions in order.) -/
structure RouteState where
  ai : List Envelope
  teacher : List Envelope
  classQ : List Envelope
  stt : List Envelope
  segments : List (String × Segment)
  lastIds : LastIds
  events : List LogEvent
  runIds : RunIdState

/-- `_log_event`: append to the event trace. -/
def logEvent (st : RouteState) (event level : String) : RouteState :=
  { st with events := st.events ++ [⟨event, level⟩] }

/-- Append an envelope to a role's queue
(`message_queues_by_role[receiver].append(...)`); callers have already
checked that `receiver` is one of the four roles. -/
def enqueueRole (st : RouteState) (receiver : String) (env : Envelope) :
    RouteState :=
  if receiver = "ai" then { st with ai := st.ai ++ [env] }
  else if receiver = "teacher" then { st with teacher := st.teacher ++ [env] }
  else if receiver = "class" then { st with classQ := st.classQ ++ [env] }
  else if receiver = "stt" then { st with stt := st.stt ++ [env] }
  else st

/-- `_enqueue(receiver, sender, message_obj)`: append the envelope and log
the `enqueue` event. -/
def enqueueMsg (st : RouteState) (receiver : String) (sender msg : JVal) :
    RouteState :=
  logEvent (enqueueRole st receiver ⟨sender, msg⟩) "enqueue" "info"

/-- `_pipeline_upsert_segment(segment_id, **updates)`: create the row if
missing (appending to the order list and evicting the oldest entry past the
2000 cap), apply the non-`None` updates, refresh `updated_ts`, and update
the `last_ids` index. -/
def pipelineUpsertSegment (st : RouteState) (now : Nat) (segId : String)
    (u : SegmentUpdates) : RouteState :=
  if segId = "" then st
  else
    match alist_get st.segments segId with
    | some row =>
      let row' := applySegmentUpdates row u now
      { st with
        segments := alist_set st.segments segId row'
        lastIds := lastIdsAfter st.lastIds row' segId }
    | none =>
      let row' := applySegmentUpdates (initSegment segId now) u now
      let segs := st.segments ++ [(segId, row')]
      let segs := if segs.length > 2000 then segs.drop 1 else segs
      { st with
        segments := segs
        lastIds := lastIdsAfter st.lastIds row' segId }

/-- The `status` of a segment in the table, if present. -/
def statusOf (st : RouteState) (sid : String) : Option String :=
  (alist_get st.segments sid).map (fun row => row.status)

/-! ## Audio capture (`_capture_audio_for_segment`, route.py lines 688-718) -/

/-- Outcome of one interaction with the Audio Capture Service collaborator:
the bridge may be unavailable (`_get_audio_bridge` returned `None`), the
capture call may raise, or it may return a reference path. -/
inductive CaptureOutcome where
  | noBridge : CaptureOutcome
  | failure (err : String) : CaptureOutcome
  | success (audioRef : String) : CaptureOutcome

/-- `_capture_audio_for_segment(flow_run_id, segment_id)`: on success log
`audio_segment_captured` and advance the segment to `captured`; on a raised
capture error log `audio_segment_capture_failed` at warn level and return
`None`; with no bridge return `None` silently. -/
def captureAudioForSegment (outc : CaptureOutcome) (st : RouteState)
    (now : Nat) (flowRunId segId : String) : RouteState × JVal :=
  match outc with
  | .noBridge => (st, .null)
  | .failure _ => (logEvent st "audio_segment_capture_failed" "warn", .null)
  | .success ref =>
    let st1 := logEvent st "audio_segment_captured" "info"
    let st2 := pipelineUpsertSegment st1 now segId
      { noUpdates with
        flow_run_id := .str flowRunId
        audio_ref := .str ref
        status := some "captured"
        sent_status := .str "captured" }
    (st2, .str ref)

/-! ## Canonical payload (`_build_student_response_payload`, lines 721-748) -/

/-- `_build_student_response_payload(...)`: the canonical
`kind=student_response` payload enqueued to the `ai` mailbox.  `freshSegId`
stands for `_make_id("seg")`, used only when `segment_id` is falsy. -/
def buildStudentResponsePayload (now : Nat) (freshSegId : String)
    (runIds : RunIdState) (text flowRunId segmentId : JVal) (injected : Bool)
    (sourceRole sourcePage audioRef : JVal) : JVal × RunIdState :=
  let clean := pyStrip (pyStr (pyOr text (.str "")))
  let segId := pyStr (pyOr segmentId (.str freshSegId))
  let r := safeRunId runIds flowRunId
  (JVal.obj
    [("id", .str segId),
     ("kind", .str "student_response"),
     ("text", .str clean),
     ("meta", JVal.obj
       [("flow_run_id", .str r.1),
        ("segment_id", .str segId),
        ("source_role", sourceRole),
        ("source_page", sourcePage),
        ("audio_ref", audioRef),
        ("injected", .bool injected),
        ("finalized", .bool true),
        ("ts_ms", .num now)])],
   r.2)

/-- `payload["meta"][k] = v` on a built payload (used for `injected_by`). -/
def jSetMetaKey (payload : JVal) (k : String) (v : JVal) : JVal :=
  match payload with
  | .obj fs =>
    .obj (alist_set fs "meta"
      (match (alist_get fs "meta").getD .null with
       | .obj ms => .obj (alist_set ms k v)
       | other => other))
  | other => other

/-! ## The Response Handler (`_handle_student_response`, lines 751-850) -/

/-- Result dictionary of `_handle_student_response`:
`err e` is `{"ok": False, "error": e}`, `droppedNoise sid rid` is
`{"ok": True, "dropped": True, "segment_id": sid, "flow_run_id": rid}` and
`sentOk sid rid aref payload` is `{"ok": True, "dropped": False, ...}`. -/
inductive HandlerResult where
  | err (e : String) : HandlerResult
  | droppedNoise (segmentId flowRunId : String) : HandlerResult
  | sentOk (segmentId flowRunId : String) (audioRef : JVal) (payload : JVal) :
      HandlerResult

/-- `_handle_student_response(sender, message_obj, injected_by)`.  `now` is
`_now_ms()`, `freshSegId` is `_make_id("seg")` (used when neither
`meta.segment_id` nor the message `id` is set), and `capture` is the Audio
Capture Service outcome for the (at most one) capture request of this call. -/
def handleStudentResponse (now : Nat) (freshSegId : String)
    (capture : CaptureOutcome) (st : RouteState) (sender msg : JVal)
    (injectedBy : Option String) : RouteState × HandlerResult :=
  match msg with
  | JVal.obj mfs =>
    let msgO := JVal.obj mfs
    let text := pyStrip (pyStr (pyOr (jGetD msgO "text") (.str "")))
    if text = "" then (st, .err "missing_text")
    else
      let meta :=
        match jGetD msgO "meta" with
        | JVal.obj ms => JVal.obj ms
        | _ => JVal.obj []
      let segId :=
        pyStr (pyOr (pyOr (jGetD meta "segment_id") (jGetD msgO "id"))
          (.str freshSegId))
      let r := safeRunId st.runIds
        (pyOr (pyOr (jGetD meta "flow_run_id") (jGetD meta "run_id"))
          (jGetD meta "runId"))
      let runId := r.1
      let st1 := { st with runIds := r.2 }
      let injected := jTruthy (jGetD meta "injected")
      if looksLikeNoise text then
        let st2 := pipelineUpsertSegment st1 now segId
          { noUpdates with
            flow_run_id := .str runId
            text := .str text
            status := some "dropped"
            source_role := pyOr (jGetD meta "source_role") sender
            source_page := jGetD meta "source_page"
            injected := some injected
            sent_status := .str "dropped" }
        let st3 := logEvent st2 "student_response_dropped_noise" "warn"
        (st3, .droppedNoise segId runId)
      else
        let audioRef0 := jGetD meta "audio_ref"
        let c :=
          if jTruthy audioRef0 then (st1, audioRef0)
          else captureAudioForSegment capture st1 now runId segId
        let st2 := c.1
        let audioRef := c.2
        let b := buildStudentResponsePayload now freshSegId st2.runIds
          (.str text) (.str runId) (.str segId) injected
          (pyOr (jGetD meta "source_role") sender)
          (pyOr (jGetD meta "source_page")
            (.str (if injected then "launcher" else "speechtexter")))
          audioRef
        let st3 := { st2 with runIds := b.2 }
        let payload :=
          match injectedBy with
          | some ib =>
            if ib ≠ "" then jSetMetaKey b.1 "injected_by" (.str ib) else b.1
          | none => b.1
        let st4 := pipelineUpsertSegment st3 now segId
          { noUpdates with
            flow_run_id := .str runId
            text := .str text
            audio_ref := audioRef
            status := some "transcribed"
            source_role := jGetD (jGetD payload "meta") "source_role"
            source_page := jGetD (jGetD payload "meta") "source_page"
            injected := some injected
            sent_status := .str "transcribed" }
        let st5 := logEvent st4 "stt_segment_finalized" "info"
        let st6 := enqueueMsg st5 "ai" sender payload
        let st7 := pipelineUpsertSegment st6 now segId
          { noUpdates with status := some "sent", sent_status := .str "sent" }
        let st8 := logEvent st7 "student_response_sent" "info"
        (st8, .sentOk segId runId audioRef payload)
  | _ => (st, .err "invalid_student_response_message")

/-! ## Rule Expansion Unit (`_expand_lesson_package_to_ai`, lines 1155-1239) -/

/-- `_safe_book_key(raw)`: strip, lower, keep only `[a-z0-9_]`. -/
def safeBookKey (raw : String) : String :=
  String.mk
    (((pyStripChars raw.data).map Char.toLower).filter
      (fun c => c.isLower || c.isDigit || c == '_'))

/-- Result of `_expand_lesson_package_to_ai`: `(False, "invalid_lesson_package")`
or `(True, package_id)`. -/
inductive ExpandResult where
  | failed (e : String) : ExpandResult
  | expanded (packageId : JVal) : ExpandResult

/-- The generic rule fallback string of `_expand_lesson_package_to_ai`. -/
def ruleFallbackText (bookType : String) : String :=
  "You are an English teacher. Follow the teaching rules for textbook: " ++
    bookType ++ "."

/-- The generic kickoff fallback string of `_expand_lesson_package_to_ai`. -/
def kickoffFallbackText : String :=
  "Now greet the student and start teaching using the textbook content above. " ++
    "Keep it natural and concise. Ask one question to the student."

/-- `_expand_lesson_package_to_ai(sender, msg)`.  The Rule Store collaborator
(`_read_rule_text` / `_read_kickoff_text`) is passed in as the two
`Option String` oracles (`none` = unavailable; the store never returns the
empty string).  `freshPkgId`, `freshRuleId`, `freshContentId`,
`freshKickoffId` stand for the four `_make_id` calls. -/
def expandLessonPackageToAi (st : RouteState)
    (freshPkgId freshRuleId freshContentId freshKickoffId : String)
    (ruleStoreText kickoffStoreText : Option String) (_sender msg : JVal) :
    RouteState × ExpandResult :=
  let bookType := safeBookKey
    (pyStr (pyOr (pyOr (jGetD msg "book_type") (jGetD msg "bookType")) (.str "")))
  let textbookVal := pyOr (jGetD msg "textbook_text") (.str "")
  let meta := pyOr (jGetD msg "meta") (.obj [])
  match textbookVal with
  | .str s =>
    if bookType = "" ∨ pyStrip s = "" then (st, .failed "invalid_lesson_package")
    else
      let packageId := pyOr (jGetD msg "id") (.str freshPkgId)
      let ruleText :=
        match ruleStoreText with
        | some t => t
        | none => ruleFallbackText bookType
      let rulePayload := JVal.obj
        [("id", .str freshRuleId), ("sender", .str "system"),
         ("receiver", .str "ai"), ("kind", .str "rule_prompt"),
         ("book_type", .str bookType), ("package_id", packageId),
         ("text", .str ruleText), ("delay_after_ms", .num 1000),
         ("flags", .obj [("special", .bool true), ("no_return_expected", .bool true)]),
         ("meta", meta)]
      let st1 := enqueueMsg st "ai" (.str "system") rulePayload
      let contentPayload := JVal.obj
        [("id", .str freshContentId), ("sender", .str "system"),
         ("receiver", .str "ai"), ("kind", .str "textbook_content"),
         ("book_type", .str bookType), ("package_id", packageId),
         ("text", .str (pyStrip s)),
         ("flags", .obj [("special", .bool true), ("no_return_expected", .bool true)]),
         ("meta", meta)]
      let st2 := enqueueMsg st1 "ai" (.str "system") contentPayload
      let kickoffText :=
        match kickoffStoreText with
        | some t => t
        | none => kickoffFallbackText
      let kickoffPayload := JVal.obj
        [("id", .str freshKickoffId), ("sender", .str "system"),
         ("receiver", .str "ai"), ("kind", .str "kickoff_prompt"),
         ("book_type", .str bookType), ("package_id", packageId),
         ("text", .str kickoffText),
         ("flags", .obj [("special", .bool true)]),
         ("meta", meta)]
      let st3 := enqueueMsg st2 "ai" (.str "system") kickoffPayload
      let st4 := logEvent st3 "lesson_package_expanded" "info"
      (st4, .expanded packageId)
  | _ => (st, .failed "invalid_lesson_package")

/-! ## `POST /send_message` (`enqueue_message`, lines 1243-1302) -/

/-- HTTP-level result of `enqueue_message`:
`okPlain` is `({"status": "ok"}, 200)`, `okExpanded pid` is
`({"status": "ok", "expanded": True, "package_id": pid}, 200)`,
`okStudent dropped sid rid aref` is the student-response success body, and
`httpErr code e` is an error response (the `e` here is a label for the
Python error string). -/
inductive SendResult where
  | okPlain : SendResult
  | okExpanded (packageId : JVal) : SendResult
  | okStudent (dropped : Bool) (segmentId flowRunId : String) (audioRef : JVal) :
      SendResult
  | httpErr (code : Nat) (error : String) : SendResult

/-- The fall-through branch of `enqueue_message`: plain `_enqueue` + 200. -/
def sendFallthrough (st : RouteState) (receiver : String) (sender msg : JVal) :
    RouteState × SendResult :=
  (enqueueMsg st receiver sender msg, .okPlain)

/-- `enqueue_message()` (`POST /send_message`) on the parsed JSON body
`data`.  Validates `from`/`to`/`message`; for `to == "ai"` and a dict
message it routes `lesson_package` through the Rule Expansion Unit and
`student_response` through the Response Handler; everything else is appended
verbatim to the receiver's mailbox. -/
def enqueueMessage (now : Nat)
    (freshSegId freshPkgId freshRuleId freshContentId freshKickoffId : String)
    (capture : CaptureOutcome) (ruleStoreText kickoffStoreText : Option String)
    (st : RouteState) (data : JVal) : RouteState × SendResult :=
  let sender := jGetD data "from"
  let receiver := jGetD data "to"
  let message := jGetD data "message"
  if jTruthy sender = false ∨ jTruthy receiver = false ∨ jIsNull message = true then
    (logEvent st "send_message_invalid" "warn", .httpErr 400 "missing_fields")
  else
    match receiver with
    | JVal.str r =>
      if r = "ai" ∨ r = "teacher" ∨ r = "class" ∨ r = "stt" then
        let st1 := logEvent st "send_message" "info"
        if r = "ai" then
          match message with
          | JVal.obj mfs =>
            let kind := pyStr (pyOr (jGetD (JVal.obj mfs) "kind") (.str ""))
            if kind = "lesson_package" then
              match expandLessonPackageToAi st1 freshPkgId freshRuleId
                freshContentId freshKickoffId ruleStoreText kickoffStoreText
                sender (JVal.obj mfs) with
              | (st2, .failed e) =>
                (logEvent st2 "lesson_package_expand_failed" "warn",
                 .httpErr 400 e)
              | (st2, .expanded pid) => (st2, .okExpanded pid)
            else if kind = "student_response" then
              match handleStudentResponse now freshSegId capture st1 sender
                (JVal.obj mfs) none with
              | (st2, .err e) => (st2, .httpErr 400 e)
              | (st2, .droppedNoise sid rid) =>
                (st2, .okStudent true sid rid .null)
              | (st2, .sentOk sid rid aref _) =>
                (st2, .okStudent false sid rid aref)
            else sendFallthrough st1 r sender message
          | _ => sendFallthrough st1 r sender message
        else sendFallthrough st1 r sender message
      else
        (logEvent st "send_message_invalid_receiver" "warn",
         .httpErr 400 "unknown_receiver")
    | _ =>
      (logEvent st "send_message_invalid_receiver" "warn",
       .httpErr 400 "unknown_receiver")

/-! ## Run Event Log (`_flush_run_to_disk` / `_append_run_event`,
route.py lines 95-119 and 307-377) -/

/-- Lower-cased level of an event entry: `str(e.get("level") or "info").lower()`. -/
def levelOf (e : JVal) : String :=
  pyLowerStr (pyStr (pyOr (jGetD e "level") (.str "info")))

/-- Lower-cased event name: `str(e.get("event") or "").lower()`. -/
def eventNameOf (e : JVal) : String :=
  pyLowerStr (pyStr (pyOr (jGetD e "event") (.str "")))

/-- All non-empty suffixes of a list, followed by the empty suffix. -/
def listTails {α : Type} : List α → List (List α)
  | [] => [[]]
  | c :: cs => (c :: cs) :: listTails cs

/-- `pat in s` (substring containment) on character lists. -/
def containsSub (pat s : List Char) : Bool :=
  (listTails s).any (fun t => List.isPrefixOf pat t)

/-- `"failed" in ev_name or ev_name.endswith("_error") or
ev_name.endswith("error")` on the lower-cased event name. -/
def eventSignalsFailure (e : JVal) : Bool :=
  let n := (eventNameOf e).data
  containsSub "failed".data n ||
    List.isSuffixOf "_error".data n || List.isSuffixOf "error".data n

/-- `counts[lvl] = counts.get(lvl, 0) + 1`. -/
def bumpCount (cs : List (String × Nat)) (k : String) : List (String × Nat) :=
  match cs with
  | [] => [(k, 1)]
  | p :: rest => if p.1 = k then (k, p.2 + 1) :: rest else p :: bumpCount rest k

/-- The per-level counts dict built by the loop of `_flush_run_to_disk`. -/
def levelCounts (events : List JVal) : List (String × Nat) :=
  events.foldl (fun cs e => bumpCount cs (levelOf e)) []

/-- `counts.get(k, 0)`. -/
def countOf (cs : List (String × Nat)) (k : String) : Nat :=
  (alist_get cs k).getD 0

/-- The `last_problem` tracked by the loop of `_flush_run_to_disk`. -/
def lastProblem (events : List JVal) : Option JVal :=
  events.foldl
    (fun acc e =>
      let l := levelOf e
      if l = "warn" ∨ l = "warning" ∨ l = "error" then some e else acc)
    none

/-- `saw_failure_signal` of `_flush_run_to_disk`. -/
def sawFailureSignal (events : List JVal) : Bool :=
  events.any eventSignalsFailure

/-- The `summary.status` computed by `_flush_run_to_disk`. -/
def runSummaryStatus (events : List JVal) : String :=
  let counts := levelCounts events
  if 0 < countOf counts "error" ∨ sawFailureSignal events = true then "failed"
  else if 0 < countOf counts "warn" ∨ 0 < countOf counts "warning" then
    "warning"
  else "ok"

/-- The JSON document `_flush_run_to_disk` writes for one run. -/
structure RunDoc where
  run_id : String
  created_ts : JVal
  updated_ts : Nat
  status : String
  counts : List (String × Nat)
  last_problem : Option JVal
  events : List JVal

/-- File-system effects of `_flush_run_to_disk`: write the full document to
`path + ".tmp"`, then `os.replace` the temp file over the target. -/
inductive FileOp where
  | writeTmp (path : String) (doc : RunDoc) : FileOp
  | renameOver (tmpPath targetPath : String) : FileOp

/-- State behind `_append_run_event` / `_flush_run_to_disk`:
`_run_events_by_id`, the `_run_files_by_id` path memo, and the trace of
file operations performed. -/
structure RunLogState where
  buckets : List (String × List JVal)
  filePaths : List (String × String)
  ops : List FileOp

/-- `_safe_filename(raw)`: strip, spaces to underscores, lower, keep only
`[a-z0-9_-]`, defaulting to `"run"`. -/
def safeFilename (raw : String) : String :=
  let r := pyStripChars raw.data
  let r := r.map (fun c => if c == ' ' then '_' else c)
  let r := r.map Char.toLower
  let r := r.filter (fun c => c.isLower || c.isDigit || c == '_' || c == '-')
  if r.isEmpty then "run" else String.mk r

/-- `re.fullmatch(r"log\d+", s)`. -/
def isLogNName (s : String) : Bool :=
  match s.data with
  | 'l' :: 'o' :: 'g' :: rest => !rest.isEmpty && rest.all Char.isDigit
  | _ => false

/-- `_run_file_for_id(run_id, first_ts_ms)` with its memo map
(`os.path.join(LOGS_DIR, ...)` is rendered with a `/`). -/
def runFileForId (fps : List (String × String)) (runId : String)
    (firstTs : JVal) : String × List (String × String) :=
  match alist_get fps runId with
  | some p => (p, fps)
  | none =>
    let safe := safeFilename runId
    let path :=
      if isLogNName safe then "logs/" ++ safe ++ ".json"
      else "logs/" ++ safe ++ "-" ++ pyStr firstTs ++ ".json"
    (path, fps ++ [(runId, path)])

/-- `_flush_run_to_disk(run_id)`: recompute the summary over the run's
events and rewrite the run's JSON document via write-to-temp + rename. -/
def flushRunToDisk (now : Nat) (st : RunLogState) (runId : String) :
    RunLogState :=
  let events := (alist_get st.buckets runId).getD []
  match events with
  | [] => st
  | e0 :: _ =>
    let firstTs := pyOr (jGetD e0 "ts") (.num now)
    let r := runFileForId st.filePaths runId firstTs
    let doc : RunDoc :=
      ⟨runId, firstTs, now, runSummaryStatus events, levelCounts events,
       lastProblem events, events⟩
    { st with
      filePaths := r.2
      ops := st.ops ++ [.writeTmp (r.1 ++ ".tmp") doc,
                        .renameOver (r.1 ++ ".tmp") r.1] }

/-- `_append_run_event(run_id, event_entry)`: ignore non-string/empty run
ids and non-dict entries; append to the run's bucket, cap it at 20000
dropping the oldest, and synchronously flush the run document. -/
def appendRunEvent (now : Nat) (st : RunLogState) (runId entry : JVal) :
    RunLogState :=
  match runId, entry with
  | JVal.str rid, JVal.obj efs =>
    if rid = "" then st
    else
      let bucket := (alist_get st.buckets rid).getD []
      let bucket := bucket ++ [JVal.obj efs]
      let bucket :=
        if bucket.length > 20000 then bucket.drop (bucket.length - 20000)
        else bucket
      flushRunToDisk now { st with buckets := alist_set st.buckets rid bucket }
        rid
  | _, _ => st

/-! ## Walkie Signaling Relay (route.py lines 85-270 and 1030-1125) -/

/-- One relayed signal, as built by `walkie_signal_push`. -/
structure WalkieSignal where
  sigType : String
  fromRole : String
  toRole : String
  payload : JVal
  ts_ms : Nat

/-- One walkie session dict.  The Python `signals` sub-dict always holds the
two role queues (`walkie_session_create` initializes both), and `last_seen`
holds per-role timestamps. -/
structure WalkieSession where
  session_id : String
  pair_code : String
  flow_run_id : String
  receiver_token : String
  transmitter_token : Option String
  created_at : Nat
  expires_at : Nat
  closed : Bool
  sigReceiver : List WalkieSignal
  sigTransmitter : List WalkieSignal
  lastSeenReceiver : Option Nat
  lastSeenTransmitter : Option Nat

/-- Relay state: `_walkie_sessions_by_id`, `_walkie_session_id_by_pair_code`
and the emitted event trace. -/
structure WalkieState where
  sessions : List (String × WalkieSession)
  byPairCode : List (String × String)
  events : List LogEvent

/-- Append to the walkie event trace (`_log_event`). -/
def walkieLogEvent (st : WalkieState) (event level : String) : WalkieState :=
  { st with events := st.events ++ [⟨event, level⟩] }

/-- The sweep condition of `_walkie_prune_sessions_locked`:
`sess.get("closed") or (expires_at > 0 and now_ms > expires_at)`. -/
def walkieSessionStale (now : Nat) (sess : WalkieSession) : Bool :=
  if sess.closed then true
  else if 0 < sess.expires_at ∧ sess.expires_at < now then true
  else false

/-- The body of the second loop of `_walkie_prune_sessions_locked` for one
stale session id: pop it from the table, drop its pair-code index entry when
it still points at this session, and log `walkie_session_expired` (warn) if
the session was not already closed. -/
def walkiePruneOne (st : WalkieState) (sid : String) : WalkieState :=
  match alist_get st.sessions sid with
  | none => st
  | some sess =>
    let sessions' := st.sessions.filter (fun p => p.1 != sid)
    let code := sess.pair_code
    let byPair' :=
      if code ≠ "" ∧ alist_get st.byPairCode code = some sid then
        st.byPairCode.filter (fun p => p.1 != code)
      else st.byPairCode
    let events' :=
      if sess.closed then st.events
      else st.events ++ [⟨"walkie_session_expired", "warn"⟩]
    ⟨sessions', byPair', events'⟩

/-- `_walkie_prune_sessions_locked()`: collect the stale ids, then sweep
each of them. -/
def walkiePrune (now : Nat) (st : WalkieState) : WalkieState :=
  let staleIds :=
    (st.sessions.filter (fun p => walkieSessionStale now p.2)).map
      (fun p => p.1)
  staleIds.foldl walkiePruneOne st

/-- Result of `_walkie_auth_locked`: the session (with its table key) and
the authenticated role, or an error string. -/
inductive AuthResult where
  | authOk (sid : String) (sess : WalkieSession) (role : String) : AuthResult
  | authErr (e : String) : AuthResult

/-- `_walkie_auth_locked(session_id, token)`. -/
def walkieAuth (now : Nat) (st : WalkieState) (sessionId token : JVal) :
    AuthResult :=
  let sid := pyStrip (pyStr (pyOr sessionId (.str "")))
  match (if sid = "" then none else alist_get st.sessions sid) with
  | none => .authErr "session_not_found"
  | some sess =>
    if sess.closed then .authErr "session_closed"
    else if 0 < sess.expires_at ∧ sess.expires_at < now then
      .authErr "session_expired"
    else
      let t := pyStrip (pyStr (pyOr token (.str "")))
      if t = "" then .authErr "missing_token"
      else if t = sess.receiver_token then .authOk sid sess "receiver"
      else if some t = sess.transmitter_token then .authOk sid sess "transmitter"
      else .authErr "invalid_token"

/-- `_walkie_queue_signal_locked`: append, then drop the oldest entries past
the 300-signal cap. -/
def trimQueue (q : List WalkieSignal) : List WalkieSignal :=
  if q.length > 300 then q.drop (q.length - 300) else q

/-- Enqueue a signal onto one of the session's two role queues. -/
def queueSignal (sess : WalkieSession) (target : String) (s : WalkieSignal) :
    WalkieSession :=
  if target = "receiver" then
    { sess with sigReceiver := trimQueue (sess.sigReceiver ++ [s]) }
  else
    { sess with sigTransmitter := trimQueue (sess.sigTransmitter ++ [s]) }

/-- `sess["last_seen"][role] = ts` (role is `receiver` or `transmitter`). -/
def setLastSeen (sess : WalkieSession) (role : String) (ts : Nat) :
    WalkieSession :=
  if role = "receiver" then { sess with lastSeenReceiver := some ts }
  else { sess with lastSeenTransmitter := some ts }

/-- The success log event of `walkie_signal_push` (`event_by_type`;
heartbeats are not logged). -/
def walkieEventForType (t : String) : Option String :=
  if t = "offer" then some "walkie_signal_offer"
  else if t = "answer" then some "walkie_signal_answer"
  else if t = "ptt_state" then some "walkie_ptt_state"
  else none

/-- HTTP-level result of the walkie signal endpoints: `ok` is
`({"status": "ok"}, 200)` from push; `okDelivered role msgs` is
`({"status": "ok", "role": role, "messages": msgs}, 200)` from pull;
`okEmptyTimeout` is pull's `({"status": "ok", "messages": []}, 200)`
deadline response; `apiErr code e` is `({"error": e}, code)`. -/
inductive WalkieApiResult where
  | ok : WalkieApiResult
  | okDelivered (role : String) (messages : List WalkieSignal) : WalkieApiResult
  | okEmptyTimeout : WalkieApiResult
  | apiErr (code : Nat) (error : String) : WalkieApiResult

/-- `walkie_signal_push` (`POST /walkie/api/signal/push`) on the parsed
body.  `now` is `_now_ms()`. -/
def walkieSignalPush (now : Nat) (st : WalkieState) (body : JVal) :
    WalkieState × WalkieApiResult :=
  let sessionId := jGetD body "session_id"
  let token := jGetD body "token"
  let toRole := pyLowerStr (pyStrip (pyStr (pyOr (jGetD body "to") (.str ""))))
  let sigType := pyLowerStr (pyStrip (pyStr (pyOr (jGetD body "type") (.str ""))))
  if toRole ≠ "receiver" ∧ toRole ≠ "transmitter" then
    (walkieLogEvent st "walkie_signal_rejected" "warn",
     .apiErr 400 "invalid_to_role")
  else if sigType ≠ "offer" ∧ sigType ≠ "answer" ∧ sigType ≠ "ptt_state" ∧
      sigType ≠ "heartbeat" then
    (walkieLogEvent st "walkie_signal_rejected" "warn",
     .apiErr 400 "invalid_signal_type")
  else
    let st1 := walkiePrune now st
    match walkieAuth now st1 sessionId token with
    | .authErr e =>
      (walkieLogEvent st1 "walkie_signal_rejected" "warn",
       .apiErr (if e = "session_not_found" then 404 else 401) e)
    | .authOk sid sess role =>
      if role = toRole then
        (walkieLogEvent st1 "walkie_signal_rejected" "warn",
         .apiErr 400 "cannot_signal_same_role")
      else
        let signal : WalkieSignal := ⟨sigType, role, toRole, jGetD body "payload", now⟩
        let sess1 := setLastSeen (queueSignal sess toRole signal) role now
        let st2 := { st1 with sessions := alist_set st1.sessions sid sess1 }
        match walkieEventForType sigType with
        | some ev => (walkieLogEvent st2 ev "info", .ok)
        | none => (st2, .ok)

/-- `max(100, min(_WALKIE_PULL_TIMEOUT_MS_MAX, timeout_ms))` with the
`int(...)`-fails-default of 25000 (`none` = missing/unparseable). -/
def clampPullTimeout (raw : Option Int) : Int :=
  let t := match raw with | some v => v | none => 25000
  max 100 (min 25000 t)

/-- `walkie_signal_pull` (`GET /walkie/api/signal/pull`).  The Python
long-poll loop (lock, prune, auth, check queue, unlock, sleep 150ms until
the clamped deadline) is modelled by its outcome on a state that no
concurrent request modifies: an auth error returns immediately; a non-empty
queue for the caller's role is delivered and atomically cleared on the
first check; otherwise every iteration sees the same empty queue and the
deadline branch returns the ok/empty response. -/
def walkieSignalPull (now : Nat) (st : WalkieState) (sessionId token : JVal) :
    WalkieState × WalkieApiResult :=
  let st1 := walkiePrune now st
  match walkieAuth now st1 sessionId token with
  | .authErr e =>
    (walkieLogEvent st1 "walkie_signal_rejected" "warn",
     .apiErr (if e = "session_not_found" then 404 else 401) e)
  | .authOk sid sess role =>
    let q := if role = "receiver" then sess.sigReceiver else sess.sigTransmitter
    match q with
    | [] => (st1, .okEmptyTimeout)
    | _ :: _ =>
      let sess1 :=
        if role = "receiver" then { sess with sigReceiver := [] }
        else { sess with sigTransmitter := [] }
      let sess2 := setLastSeen sess1 role now
      ({ st1 with sessions := alist_set st1.sessions sid sess2 },
       .okDelivered role q)

/-- Empty router state over a given logs-directory listing. -/
def emptyRouteState (files : List String) : RouteState :=
  ⟨[], [], [], [], [], ⟨none, none, none, none⟩, [], ⟨files, [], none⟩⟩

/-- A live walkie session fixture: never expires (`expires_at = 0`), not
closed, both role tokens issued, both queues empty. -/
def wSessLive : WalkieSession :=
  ⟨"s1", "1234", "log1", "rtok", some "ttok", 0, 0, false, [], [], none, none⟩

/-- Relay state holding only the live session. -/
def wStLive : WalkieState := ⟨[("s1", wSessLive)], [("1234", "s1")], []⟩

/-- An expired walkie session fixture: `expires_at = 400`, not closed. -/
def wSessExpired : WalkieSession :=
  ⟨"s2", "5678", "log2", "rtok2", some "ttok2", 0, 400, false, [], [], none,
   none⟩

/-- Relay state holding only the expired session. -/
def wStExpired : WalkieState := ⟨[("s2", wSessExpired)], [("5678", "s2")], []⟩

/-! ## Helper lemmas -/

theorem toDigitsCore_cons_ne_nil (b fuel n : Nat) (d : Char) (ds : List Char) :
    Nat.toDigitsCore b fuel n (d :: ds) ≠ [] := by
  induction fuel generalizing n d ds with
  | zero => simp [Nat.toDigitsCore]
  | succ f ih =>
    simp only [Nat.toDigitsCore]
    split
    · simp
    · exact ih _ _ _

theorem nat_repr_ne_empty (n : Nat) : Nat.repr n ≠ "" := by
  unfold Nat.repr
  intro h
  have hdata : (Nat.toDigits 10 n).asString.data = "".data := by rw [h]
  simp only [List.asString] at hdata
  have hnil : Nat.toDigits 10 n = [] := hdata
  unfold Nat.toDigits at hnil
  rw [show n + 1 = Nat.succ n from rfl] at hnil
  simp only [Nat.toDigitsCore] at hnil
  revert hnil
  split
  · simp
  · exact toDigitsCore_cons_ne_nil _ _ _ _ _

theorem int_toString_ne_empty (n : Int) : toString n ≠ "" := by
  show Int.repr n ≠ ""
  cases n with
  | ofNat m => exact nat_repr_ne_empty m
  | negSucc m =>
    show "-" ++ Nat.repr (m + 1) ≠ ""
    intro h
    have : ("-" ++ Nat.repr (m + 1)).data = "".data := by rw [h]
    simp at this

theorem pyOr_str_empty (s : String) : pyOr (JVal.str s) (JVal.str "") = JVal.str s := by
  by_cases h : s = "" <;> simp [pyOr, jTruthy, h]

theorem pyReprFuel_arr_ne_empty (fuel : Nat) (xs : List JVal) :
    pyReprFuel (fuel + 1) (JVal.arr xs) ≠ "" := by
  simp only [pyReprFuel]
  intro h
  have : ("[" ++ (String.intercalate ", " (xs.map (pyReprFuel fuel)) ++ "]")).data = "".data := by
    rw [← h]; simp [String.data_append]
  simp [String.data_append] at this

theorem pyReprFuel_obj_ne_empty (fuel : Nat) (fs : List (String × JVal)) :
    pyReprFuel (fuel + 1) (JVal.obj fs) ≠ "" := by
  simp only [pyReprFuel]
  intro h
  have : ("\x7b" ++ (String.intercalate ", "
      (fs.map (fun p => "'" ++ p.1 ++ "': " ++ pyReprFuel fuel p.2)) ++ "\x7d")).data = "".data := by
    rw [← h]; simp [String.data_append]
  simp [String.data_append] at this

/-- `str(v)` of a truthy value is never the empty string. -/
theorem pyStr_truthy_ne_empty (v : JVal) (h : jTruthy v = true) : pyStr v ≠ "" := by
  cases v with
  | null => simp [jTruthy] at h
  | bool b =>
    cases b with
    | false => simp [jTruthy] at h
    | true => simp [pyStr]
  | num n =>
    simp only [jTruthy, bne_iff_ne, ne_eq] at h
    exact int_toString_ne_empty n
  | str s =>
    simp only [jTruthy, bne_iff_ne, ne_eq] at h
    simpa [pyStr] using h
  | arr xs =>
    show pyReprFuel 1000 (JVal.arr xs) ≠ ""
    rw [show (1000 : Nat) = 999 + 1 from rfl]
    exact pyReprFuel_arr_ne_empty 999 xs
  | obj fs =>
    show pyReprFuel 1000 (JVal.obj fs) ≠ ""
    rw [show (1000 : Nat) = 999 + 1 from rfl]
    exact pyReprFuel_obj_ne_empty 999 fs

/-- `str(x or fallback)` is nonempty when the fallback string is. -/
theorem pyStr_pyOr_fallback_ne (x : JVal) (s : String) (hs : s ≠ "") :
    pyStr (pyOr x (JVal.str s)) ≠ "" := by
  unfold pyOr
  by_cases h : jTruthy x = true
  · simp only [h, if_true]
    exact pyStr_truthy_ne_empty x h
  · simp only [h, if_false, Bool.false_eq_true]
    simpa [pyStr] using hs

theorem alist_get_set_self {α : Type} (l : List (String × α)) (k : String) (v : α) :
    alist_get (alist_set l k v) k = some v := by
  induction l with
  | nil => simp [alist_get, alist_set]
  | cons p rest ih =>
    by_cases h : p.1 = k
    · simp [alist_set, alist_get, h]
    · simp [alist_set, alist_get, h, ih]

theorem alist_get_set_ne {α : Type} (l : List (String × α)) (k k' : String)
    (v : α) (hne : k' ≠ k) :
    alist_get (alist_set l k v) k' = alist_get l k' := by
  induction l with
  | nil =>
    have hk : ¬ k = k' := fun h => hne h.symm
    simp [alist_get, alist_set, hk]
  | cons p rest ih =>
    simp only [alist_set]
    by_cases h : p.1 = k
    · simp only [h, if_true]
      have hk : ¬ k = k' := fun hh => hne hh.symm
      have hp : ¬ p.1 = k' := by rw [h]; exact hk
      simp [alist_get, hk, hp]
    · simp only [h, if_false]
      simp only [alist_get]
      by_cases h2 : p.1 = k'
      · simp [h2]
      · simp [h2, ih]

theorem alist_get_append_of_none {α : Type} (l l' : List (String × α))
    (k : String) (h : alist_get l k = none) :
    alist_get (l ++ l') k = alist_get l' k := by
  induction l with
  | nil => simp
  | cons p rest ih =>
    by_cases hp : p.1 = k
    · simp [alist_get, hp] at h
    · simp only [alist_get, hp, if_false] at h
      simp only [List.cons_append, alist_get, hp, if_false]
      exact ih h

theorem alist_get_filter_self {α : Type} (l : List (String × α)) (k : String) :
    alist_get (l.filter (fun p => p.1 != k)) k = none := by
  induction l with
  | nil => simp [alist_get]
  | cons p rest ih =>
    by_cases hp : p.1 = k
    · rw [List.filter_cons_of_neg (by simp [hp])]
      exact ih
    · rw [List.filter_cons_of_pos (by simp [hp])]
      simpa [alist_get, hp] using ih

theorem alist_get_filter_ne {α : Type} (l : List (String × α)) (k k' : String)
    (hne : k' ≠ k) :
    alist_get (l.filter (fun p => p.1 != k)) k' = alist_get l k' := by
  induction l with
  | nil => simp
  | cons p rest ih =>
    by_cases hp : p.1 = k
    · rw [List.filter_cons_of_neg (by simp [hp])]
      have hp2 : ¬ p.1 = k' := by rw [hp]; exact fun h => hne h.symm
      rw [ih]
      simp [alist_get, hp2]
    · rw [List.filter_cons_of_pos (by simp [hp])]
      by_cases hp2 : p.1 = k'
      · simp [alist_get, hp2]
      · simp [alist_get, hp2, ih]

theorem alist_get_drop_one_of_none {α : Type} (l : List (String × α))
    (k : String) (h : alist_get l k = none) :
    alist_get (l.drop 1) k = none := by
  cases l with
  | nil => simp [alist_get]
  | cons p rest =>
    by_cases hp : p.1 = k
    · simp [alist_get, hp] at h
    · simpa [alist_get, hp] using h

theorem logEvent_ai (st : RouteState) (e l : String) : (logEvent st e l).ai = st.ai := rfl

theorem logEvent_segments (st : RouteState) (e l : String) :
    (logEvent st e l).segments = st.segments := rfl

theorem upsert_preserves (st : RouteState) (now : Nat) (sid : String)
    (u : SegmentUpdates) :
    (pipelineUpsertSegment st now sid u).ai = st.ai ∧
    (pipelineUpsertSegment st now sid u).teacher = st.teacher ∧
    (pipelineUpsertSegment st now sid u).classQ = st.classQ ∧
    (pipelineUpsertSegment st now sid u).stt = st.stt ∧
    (pipelineUpsertSegment st now sid u).events = st.events ∧
    (pipelineUpsertSegment st now sid u).runIds = st.runIds := by
  unfold pipelineUpsertSegment
  split
  · exact ⟨rfl, rfl, rfl, rfl, rfl, rfl⟩
  · split
    · exact ⟨rfl, rfl, rfl, rfl, rfl, rfl⟩
    · exact ⟨rfl, rfl, rfl, rfl, rfl, rfl⟩

/-- A `_pipeline_upsert_segment` call with an explicit `status` keyword
leaves the segment present with exactly that status. -/
theorem statusOf_upsert_self (st : RouteState) (now : Nat) (sid : String)
    (u : SegmentUpdates) (s : String) (hsid : sid ≠ "")
    (hs : u.status = some s) :
    statusOf (pipelineUpsertSegment st now sid u) sid = some s := by
  unfold pipelineUpsertSegment
  rw [if_neg hsid]
  cases hrow : alist_get st.segments sid with
  | some row =>
    simp only [hrow, statusOf]
    rw [alist_get_set_self]
    simp [applySegmentUpdates, hs]
  | none =>
    simp only [hrow, statusOf]
    by_cases hlen : (st.segments ++ [(sid, applySegmentUpdates (initSegment sid now) u now)]).length > 2000
    · rw [if_pos hlen]
      have hd : alist_get ((st.segments ++
          [(sid, applySegmentUpdates (initSegment sid now) u now)]).drop 1) sid =
          some (applySegmentUpdates (initSegment sid now) u now) := by
        cases hseg : st.segments with
        | nil =>
          rw [hseg] at hlen
          simp at hlen
        | cons p rest =>
          simp only [List.cons_append, List.drop_succ_cons, List.drop_zero]
          have hnone : alist_get rest sid = none := by
            rw [hseg] at hrow
            by_cases hp : p.1 = sid
            · simp [alist_get, hp] at hrow
            · simpa [alist_get, hp] using hrow
          rw [alist_get_append_of_none _ _ _ hnone]
          simp [alist_get]
      rw [hd]
      simp [applySegmentUpdates, hs]
    · rw [if_neg hlen]
      rw [alist_get_append_of_none _ _ _ hrow]
      simp [alist_get, applySegmentUpdates, hs]

/-! ## Facts about the run-file index scan -/

/-- The folding step of `scanNextLogIndex`. -/
def scanStep (m : Nat) (name : String) : Nat :=
  match parseLogIndex name with
  | some idx => if idx > m then idx else m
  | none => m

theorem scanNextLogIndex_eq_foldl (files : List String) :
    scanNextLogIndex files = files.foldl scanStep 0 + 1 := by
  unfold scanNextLogIndex scanStep
  rfl

theorem foldl_scanStep_ge (files : List String) (acc : Nat) :
    acc ≤ files.foldl scanStep acc := by
  induction files generalizing acc with
  | nil => simp
  | cons f rest ih =>
    simp only [List.foldl_cons]
    refine le_trans ?_ (ih (scanStep acc f))
    unfold scanStep
    cases parseLogIndex f with
    | none => simp
    | some idx =>
      by_cases h : idx > acc
      · simp [h]
        omega
      · simp [h]

theorem foldl_scanStep_mem_le (files : List String) (f : String) (i : Nat)
    (hp : parseLogIndex f = some i) :
    ∀ acc : Nat, f ∈ files → i ≤ files.foldl scanStep acc := by
  induction files with
  | nil => intro acc hf; cases hf
  | cons g rest ih =>
    intro acc hf
    simp only [List.foldl_cons]
    rcases List.mem_cons.mp hf with hgf | hmem
    · subst hgf
      refine le_trans ?_ (foldl_scanStep_ge rest (scanStep acc f))
      unfold scanStep
      rw [hp]
      by_cases h : i > acc
      · simp [h]
      · simp [h]; omega
    · exact ih (scanStep acc g) hmem

theorem foldl_scanStep_attained (files : List String) :
    ∀ acc : Nat, files.foldl scanStep acc = acc ∨
      ∃ f ∈ files, parseLogIndex f = some (files.foldl scanStep acc) := by
  induction files with
  | nil => intro acc; left; rfl
  | cons g rest ih =>
    intro acc
    simp only [List.foldl_cons]
    rcases ih (scanStep acc g) with heq | ⟨f, hf, hp⟩
    · rw [heq]
      unfold scanStep
      cases hpg : parseLogIndex g with
      | none => left; rfl
      | some idx =>
        by_cases h : idx > acc
        · right
          refine ⟨g, List.mem_cons_self _ _, ?_⟩
          rw [hpg]
          simp [h]
        · left; simp [h]
    · right
      exact ⟨f, List.mem_cons_of_mem _ hf, hp⟩

/-! ## Facts about `safeRunId` -/

theorem safeRunId_passthrough (st : RunIdState) (s : String)
    (hne : pyStrip s ≠ "") (hkp : kickstartPrefixed (pyStrip s) = false) :
    safeRunId st (.str s) = (pyStrip s, st) := by
  unfold safeRunId
  rw [pyOr_str_empty]
  simp only [pyStr]
  rw [if_pos ⟨hne, hkp⟩]

theorem safeRunId_legacy_miss (st : RunIdState) (s : String)
    (hne : pyStrip s ≠ "") (hkp : kickstartPrefixed (pyStrip s) = true)
    (hmiss : alist_get st.legacyMap (pyStrip s) = none) :
    safeRunId st (.str s) =
      ((nextAutoRunId st).1,
       { (nextAutoRunId st).2 with
         legacyMap := (nextAutoRunId st).2.legacyMap ++
           [(pyStrip s, (nextAutoRunId st).1)] }) := by
  unfold safeRunId
  rw [pyOr_str_empty]
  simp only [pyStr]
  rw [if_neg (by simp [hkp])]
  rw [if_pos hne]
  rw [hmiss]

theorem safeRunId_legacy_hit (st : RunIdState) (s m : String)
    (hne : pyStrip s ≠ "") (hkp : kickstartPrefixed (pyStrip s) = true)
    (hhit : alist_get st.legacyMap (pyStrip s) = some m) :
    safeRunId st (.str s) = (m, st) := by
  unfold safeRunId
  rw [pyOr_str_empty]
  simp only [pyStr]
  rw [if_neg (by simp [hkp])]
  rw [if_pos hne]
  rw [hhit]

theorem safeRunId_omitted (st : RunIdState) :
    safeRunId st .null = nextAutoRunId st := by
  unfold safeRunId
  simp [pyOr, jTruthy, pyStr, pyStrip, pyStripChars, dropTrailing]

theorem nextAutoRunId_legacyMap (st : RunIdState) :
    (nextAutoRunId st).2.legacyMap = st.legacyMap := by
  unfold nextAutoRunId
  cases st.nextIdx <;> rfl

theorem nextAutoRunId_init (files : List String) (lm : List (String × String)) :
    nextAutoRunId ⟨files, lm, none⟩ =
      ("log" ++ toString (scanNextLogIndex files),
       ⟨files, lm, some (scanNextLogIndex files + 1)⟩) := rfl

theorem nextAutoRunId_some (files : List String) (lm : List (String × String))
    (i : Nat) :
    nextAutoRunId ⟨files, lm, some i⟩ =
      ("log" ++ toString i, ⟨files, lm, some (i + 1)⟩) := rfl

/-! ## Claim C8 -/

/-- Claim C8, counterexample: an explicit, non-reserved `flow_run_id` with
surrounding whitespace does **not** pass through unchanged — `_safe_run_id`
first strips it, so the id `" myrun "` comes back as `"myrun"`. -/
theorem c8_counterexample :
    kickstartPrefixed " myrun " = false ∧
    (safeRunId ⟨[], [], none⟩ (JVal.str " myrun ")).1 = "myrun" ∧
    (safeRunId ⟨[], [], none⟩ (JVal.str " myrun ")).1 ≠ " myrun " := by
  exact ⟨by decide, rfl, by decide⟩

/-- Claim C8 (amended): `_safe_run_id` first trims the explicit id; a
trimmed id not starting (case-insensitively) with the reserved `kickstart`
prefix passes through as its trimmed form with no state change; a reserved
id is remapped exactly once per distinct trimmed legacy id — the memo map
makes the same legacy id always yield the same generated id — to the next
sequential `log{n}` id; an omitted id gets a fresh sequential id; the
counter is initialized at first use to one past the highest index found by
scanning the persisted run file names and is thereafter bumped in memory,
never re-reading the directory listing. -/
theorem c8_flow_run_id_normalization :
    (∀ (st : RunIdState) (s : String), pyStrip s ≠ "" →
      kickstartPrefixed (pyStrip s) = false →
      safeRunId st (.str s) = (pyStrip s, st)) ∧
    (∀ (st : RunIdState) (s : String) (i : Nat), pyStrip s ≠ "" →
      kickstartPrefixed (pyStrip s) = true →
      alist_get st.legacyMap (pyStrip s) = none →
      st.nextIdx = some i →
      safeRunId st (.str s) =
        ("log" ++ toString i,
         ⟨st.logFiles, st.legacyMap ++ [(pyStrip s, "log" ++ toString i)],
          some (i + 1)⟩)) ∧
    (∀ (st : RunIdState) (s m : String), pyStrip s ≠ "" →
      kickstartPrefixed (pyStrip s) = true →
      alist_get st.legacyMap (pyStrip s) = some m →
      safeRunId st (.str s) = (m, st)) ∧
    (∀ (st : RunIdState) (s : String), pyStrip s ≠ "" →
      kickstartPrefixed (pyStrip s) = true →
      safeRunId (safeRunId st (.str s)).2 (.str s) =
        ((safeRunId st (.str s)).1, (safeRunId st (.str s)).2)) ∧
    (∀ st : RunIdState, safeRunId st .null = nextAutoRunId st) ∧
    (∀ (files : List String) (lm : List (String × String)),
      nextAutoRunId ⟨files, lm, none⟩ =
        ("log" ++ toString (scanNextLogIndex files),
         ⟨files, lm, some (scanNextLogIndex files + 1)⟩)) ∧
    (∀ files : List String,
      (∀ f ∈ files, ∀ i, parseLogIndex f = some i → i < scanNextLogIndex files) ∧
      (scanNextLogIndex files = 1 ∨
        ∃ f ∈ files, parseLogIndex f = some (scanNextLogIndex files - 1))) ∧
    (∀ (files files' : List String) (lm lm' : List (String × String)) (i : Nat),
      (nextAutoRunId ⟨files, lm, some i⟩).1 =
        (nextAutoRunId ⟨files', lm', some i⟩).1 ∧
      (nextAutoRunId ⟨files, lm, some i⟩).2.nextIdx = some (i + 1)) := by
  refine ⟨safeRunId_passthrough, ?_, safeRunId_legacy_hit, ?_, safeRunId_omitted,
    nextAutoRunId_init, ?_, ?_⟩
  · intro st s i hne hkp hmiss hidx
    obtain ⟨files, lm, ni⟩ := st
    simp only at hidx hmiss
    subst hidx
    rw [safeRunId_legacy_miss _ _ hne hkp hmiss]
    rfl
  · intro st s hne hkp
    cases hm : alist_get st.legacyMap (pyStrip s) with
    | some m =>
      rw [safeRunId_legacy_hit st s m hne hkp hm]
      exact safeRunId_legacy_hit st s m hne hkp hm
    | none =>
      rw [safeRunId_legacy_miss st s hne hkp hm]
      have hhit :
          alist_get ((nextAutoRunId st).2.legacyMap ++
            [(pyStrip s, (nextAutoRunId st).1)]) (pyStrip s) =
          some (nextAutoRunId st).1 := by
        rw [nextAutoRunId_legacyMap]
        rw [alist_get_append_of_none _ _ _ hm]
        simp [alist_get]
      exact safeRunId_legacy_hit _ s _ hne hkp hhit
  · intro files
    constructor
    · intro f hf i hp
      rw [scanNextLogIndex_eq_foldl]
      have := foldl_scanStep_mem_le files f i hp 0 hf
      omega
    · rw [scanNextLogIndex_eq_foldl]
      rcases foldl_scanStep_attained files 0 with heq | ⟨f, hf, hp⟩
      · left; rw [heq]
      · right; exact ⟨f, hf, by simpa using hp⟩
  · intro files files' lm lm' i
    exact ⟨rfl, rfl⟩

/-- Claim C8, witness: with logs directory `["log3.json", "notes.txt"]` the
counter starts at 4; `"runX"` passes through; the legacy id `"kickstart-7"`
maps to `"log4"` and maps to `"log4"` again on a second call. -/
theorem c8_witness :
    safeRunId ⟨["log3.json", "notes.txt"], [], none⟩ (.str "runX") =
      ("runX", ⟨["log3.json", "notes.txt"], [], none⟩) ∧
    scanNextLogIndex ["log3.json", "notes.txt"] = 4 ∧
    safeRunId ⟨["log3.json", "notes.txt"], [], some 4⟩ (.str "kickstart-7") =
      ("log4", ⟨["log3.json", "notes.txt"], [("kickstart-7", "log4")], some 5⟩) ∧
    safeRunId ⟨["log3.json", "notes.txt"], [("kickstart-7", "log4")], some 5⟩
        (.str "kickstart-7") =
      ("log4", ⟨["log3.json", "notes.txt"], [("kickstart-7", "log4")], some 5⟩) := by
  refine ⟨?_, by decide, ?_, ?_⟩
  · exact c8_flow_run_id_normalization.1 _ "runX" (by decide) (by decide)
  · exact c8_flow_run_id_normalization.2.1 ⟨["log3.json", "notes.txt"], [], some 4⟩
      "kickstart-7" 4 (by decide) (by decide) (by decide) rfl
  · exact c8_flow_run_id_normalization.2.2.1
      ⟨["log3.json", "notes.txt"], [("kickstart-7", "log4")], some 5⟩
      "kickstart-7" "log4" (by decide) (by decide) (by decide)

/-! ## Facts about the run summary -/

theorem countOf_bumpCount_same (cs : List (String × Nat)) (k : String) :
    countOf (bumpCount cs k) k = countOf cs k + 1 := by
  induction cs with
  | nil => simp [bumpCount, countOf, alist_get]
  | cons p rest ih =>
    by_cases h : p.1 = k
    · simp [bumpCount, countOf, alist_get, h]
    · simp only [bumpCount, h, if_false]
      simpa [countOf, alist_get, h] using ih

theorem countOf_bumpCount_ne (cs : List (String × Nat)) (k k' : String)
    (hne : k' ≠ k) :
    countOf (bumpCount cs k) k' = countOf cs k' := by
  induction cs with
  | nil =>
    have hk : ¬ k = k' := fun h => hne h.symm
    simp [bumpCount, countOf, alist_get, hk]
  | cons p rest ih =>
    by_cases h : p.1 = k
    · have hk : ¬ k = k' := fun hh => hne hh.symm
      have hp : ¬ p.1 = k' := by rw [h]; exact hk
      simp [bumpCount, countOf, alist_get, h, hk, hp]
    · by_cases h2 : p.1 = k'
      · simp [bumpCount, countOf, alist_get, h, h2, hne]
      · simp only [bumpCount, h, if_false]
        simpa [countOf, alist_get, h2] using ih

theorem countOf_foldl_bump (evs : List JVal) (k : String) :
    ∀ cs : List (String × Nat),
      countOf (evs.foldl (fun cs e => bumpCount cs (levelOf e)) cs) k =
        countOf cs k + evs.countP (fun e => levelOf e == k) := by
  induction evs with
  | nil => intro cs; simp
  | cons ev rest ih =>
    intro cs
    simp only [List.foldl_cons, List.countP_cons]
    rw [ih (bumpCount cs (levelOf ev))]
    by_cases h : levelOf ev = k
    · subst h
      rw [countOf_bumpCount_same]
      simp only [beq_self_eq_true, if_true]
      omega
    · rw [countOf_bumpCount_ne _ _ _ (fun hh => h hh.symm)]
      have : (levelOf ev == k) = false := by simp [h]
      rw [this]
      simp

theorem countOf_levelCounts_pos (evs : List JVal) (k : String) :
    0 < countOf (levelCounts evs) k ↔ ∃ e ∈ evs, levelOf e = k := by
  unfold levelCounts
  rw [countOf_foldl_bump]
  simp only [countOf, alist_get, Option.getD_none, Nat.zero_add]
  rw [List.countP_pos_iff]
  simp

theorem sawFailureSignal_iff (evs : List JVal) :
    sawFailureSignal evs = true ↔ ∃ e ∈ evs, eventSignalsFailure e = true := by
  unfold sawFailureSignal
  exact List.any_eq_true

/-- The `_error` suffix test is subsumed by the `error` suffix test. -/
theorem eventSignalsFailure_iff (e : JVal) :
    eventSignalsFailure e = true ↔
      (containsSub "failed".data (eventNameOf e).data = true ∨
       List.isSuffixOf "error".data (eventNameOf e).data = true) := by
  unfold eventSignalsFailure
  constructor
  · intro h
    simp only [Bool.or_eq_true] at h
    rcases h with (h | h) | h
    · exact Or.inl h
    · right
      rw [List.isSuffixOf_iff_suffix] at h ⊢
      exact List.IsSuffix.trans (by decide) h
    · exact Or.inr h
  · intro h
    rcases h with h | h
    · simp [h]
    · simp [h]

theorem runSummaryStatus_failed_iff (evs : List JVal) :
    runSummaryStatus evs = "failed" ↔
      ∃ e ∈ evs, levelOf e = "error" ∨ eventSignalsFailure e = true := by
  unfold runSummaryStatus
  by_cases hf : 0 < countOf (levelCounts evs) "error" ∨ sawFailureSignal evs = true
  · rw [if_pos hf]
    constructor
    · intro _
      rcases hf with h | h
      · rcases (countOf_levelCounts_pos evs "error").mp h with ⟨e, he, hl⟩
        exact ⟨e, he, Or.inl hl⟩
      · rcases (sawFailureSignal_iff evs).mp h with ⟨e, he, hs⟩
        exact ⟨e, he, Or.inr hs⟩
    · intro _; rfl
  · rw [if_neg hf]
    constructor
    · intro h
      by_cases hw : 0 < countOf (levelCounts evs) "warn" ∨
          0 < countOf (levelCounts evs) "warning"
      · rw [if_pos hw] at h; exact absurd h (by decide)
      · rw [if_neg hw] at h; exact absurd h (by decide)
    · intro ⟨e, he, hd⟩
      exfalso
      apply hf
      rcases hd with hl | hs
      · exact Or.inl ((countOf_levelCounts_pos evs "error").mpr ⟨e, he, hl⟩)
      · exact Or.inr ((sawFailureSignal_iff evs).mpr ⟨e, he, hs⟩)

theorem runSummaryStatus_warning_iff (evs : List JVal) :
    runSummaryStatus evs = "warning" ↔
      (¬ ∃ e ∈ evs, levelOf e = "error" ∨ eventSignalsFailure e = true) ∧
      ∃ e ∈ evs, levelOf e = "warn" ∨ levelOf e = "warning" := by
  unfold runSummaryStatus
  by_cases hf : 0 < countOf (levelCounts evs) "error" ∨ sawFailureSignal evs = true
  · rw [if_pos hf]
    constructor
    · intro h; exact absurd h (by decide)
    · intro ⟨hno, _⟩
      exfalso
      apply hno
      rcases hf with h | h
      · rcases (countOf_levelCounts_pos evs "error").mp h with ⟨e, he, hl⟩
        exact ⟨e, he, Or.inl hl⟩
      · rcases (sawFailureSignal_iff evs).mp h with ⟨e, he, hs⟩
        exact ⟨e, he, Or.inr hs⟩
  · rw [if_neg hf]
    have hnof : ¬ ∃ e ∈ evs, levelOf e = "error" ∨ eventSignalsFailure e = true := by
      intro ⟨e, he, hd⟩
      apply hf
      rcases hd with hl | hs
      · exact Or.inl ((countOf_levelCounts_pos evs "error").mpr ⟨e, he, hl⟩)
      · exact Or.inr ((sawFailureSignal_iff evs).mpr ⟨e, he, hs⟩)
    by_cases hw : 0 < countOf (levelCounts evs) "warn" ∨
        0 < countOf (levelCounts evs) "warning"
    · rw [if_pos hw]
      constructor
      · intro _
        refine ⟨hnof, ?_⟩
        rcases hw with h | h
        · rcases (countOf_levelCounts_pos evs "warn").mp h with ⟨e, he, hl⟩
          exact ⟨e, he, Or.inl hl⟩
        · rcases (countOf_levelCounts_pos evs "warning").mp h with ⟨e, he, hl⟩
          exact ⟨e, he, Or.inr hl⟩
      · intro _; rfl
    · rw [if_neg hw]
      constructor
      · intro h; exact absurd h (by decide)
      · intro ⟨_, e, he, hd⟩
        exfalso
        apply hw
        rcases hd with hl | hl
        · exact Or.inl ((countOf_levelCounts_pos evs "warn").mpr ⟨e, he, hl⟩)
        · exact Or.inr ((countOf_levelCounts_pos evs "warning").mpr ⟨e, he, hl⟩)

theorem runSummaryStatus_ok_iff (evs : List JVal) :
    runSummaryStatus evs = "ok" ↔
      (¬ ∃ e ∈ evs, levelOf e = "error" ∨ eventSignalsFailure e = true) ∧
      (¬ ∃ e ∈ evs, levelOf e = "warn" ∨ levelOf e = "warning") := by
  unfold runSummaryStatus
  by_cases hf : 0 < countOf (levelCounts evs) "error" ∨ sawFailureSignal evs = true
  · rw [if_pos hf]
    constructor
    · intro h; exact absurd h (by decide)
    · intro ⟨hno, _⟩
      exfalso
      apply hno
      rcases hf with h | h
      · rcases (countOf_levelCounts_pos evs "error").mp h with ⟨e, he, hl⟩
        exact ⟨e, he, Or.inl hl⟩
      · rcases (sawFailureSignal_iff evs).mp h with ⟨e, he, hs⟩
        exact ⟨e, he, Or.inr hs⟩
  · rw [if_neg hf]
    have hnof : ¬ ∃ e ∈ evs, levelOf e = "error" ∨ eventSignalsFailure e = true := by
      intro ⟨e, he, hd⟩
      apply hf
      rcases hd with hl | hs
      · exact Or.inl ((countOf_levelCounts_pos evs "error").mpr ⟨e, he, hl⟩)
      · exact Or.inr ((sawFailureSignal_iff evs).mpr ⟨e, he, hs⟩)
    by_cases hw : 0 < countOf (levelCounts evs) "warn" ∨
        0 < countOf (levelCounts evs) "warning"
    · rw [if_pos hw]
      constructor
      · intro h; exact absurd h (by decide)
      · intro ⟨_, hnow⟩
        exfalso
        apply hnow
        rcases hw with h | h
        · rcases (countOf_levelCounts_pos evs "warn").mp h with ⟨e, he, hl⟩
          exact ⟨e, he, Or.inl hl⟩
        · rcases (countOf_levelCounts_pos evs "warning").mp h with ⟨e, he, hl⟩
          exact ⟨e, he, Or.inr hl⟩
    · rw [if_neg hw]
      have hnow : ¬ ∃ e ∈ evs, levelOf e = "warn" ∨ levelOf e = "warning" := by
        intro ⟨e, he, hd⟩
        apply hw
        rcases hd with hl | hl
        · exact Or.inl ((countOf_levelCounts_pos evs "warn").mpr ⟨e, he, hl⟩)
        · exact Or.inr ((countOf_levelCounts_pos evs "warning").mpr ⟨e, he, hl⟩)
      exact ⟨fun _ => ⟨hnof, hnow⟩, fun _ => rfl⟩

theorem flushRunToDisk_nonempty (now : Nat) (st : RunLogState) (runId : String)
    (e0 : JVal) (rest : List JVal)
    (hget : alist_get st.buckets runId = some (e0 :: rest)) :
    flushRunToDisk now st runId =
      { st with
        filePaths :=
          (runFileForId st.filePaths runId (pyOr (jGetD e0 "ts") (.num now))).2
        ops := st.ops ++
          [.writeTmp
             ((runFileForId st.filePaths runId (pyOr (jGetD e0 "ts") (.num now))).1
               ++ ".tmp")
             ⟨runId, pyOr (jGetD e0 "ts") (.num now), now,
              runSummaryStatus (e0 :: rest), levelCounts (e0 :: rest),
              lastProblem (e0 :: rest), e0 :: rest⟩,
           .renameOver
             ((runFileForId st.filePaths runId (pyOr (jGetD e0 "ts") (.num now))).1
               ++ ".tmp")
             (runFileForId st.filePaths runId (pyOr (jGetD e0 "ts") (.num now))).1] } := by
  unfold flushRunToDisk
  rw [hget]
  rfl

/-- What one `_append_run_event` call does for a valid run id: the bucket
becomes the capped append, and exactly one write-temp + rename-over pair is
emitted whose document carries the freshly recomputed summary status over
exactly the bucket's events. -/
theorem appendRunEvent_spec (st : RunLogState) (rid : String)
    (efs : List (String × JVal)) (now : Nat) (hne : rid ≠ "") :
    ∃ bu : List JVal,
      alist_get (appendRunEvent now st (.str rid) (.obj efs)).buckets rid = some bu ∧
      bu = (if ((alist_get st.buckets rid).getD [] ++ [JVal.obj efs]).length > 20000
            then ((alist_get st.buckets rid).getD [] ++ [JVal.obj efs]).drop
                 (((alist_get st.buckets rid).getD [] ++ [JVal.obj efs]).length - 20000)
            else (alist_get st.buckets rid).getD [] ++ [JVal.obj efs]) ∧
      bu.length ≤ 20000 ∧
      ∃ (path : String) (doc : RunDoc),
        (appendRunEvent now st (.str rid) (.obj efs)).ops =
          st.ops ++ [.writeTmp (path ++ ".tmp") doc,
                     .renameOver (path ++ ".tmp") path] ∧
        doc.run_id = rid ∧ doc.status = runSummaryStatus bu ∧ doc.events = bu := by
  obtain ⟨cap, hcap⟩ : ∃ cap : List JVal,
      cap = (if ((alist_get st.buckets rid).getD [] ++ [JVal.obj efs]).length > 20000
             then ((alist_get st.buckets rid).getD [] ++ [JVal.obj efs]).drop
                  (((alist_get st.buckets rid).getD [] ++ [JVal.obj efs]).length - 20000)
             else (alist_get st.buckets rid).getD [] ++ [JVal.obj efs]) := ⟨_, rfl⟩
  have happ : appendRunEvent now st (.str rid) (.obj efs) =
      flushRunToDisk now { st with buckets := alist_set st.buckets rid cap } rid := by
    rw [hcap]
    show (if rid = "" then st else _) = _
    rw [if_neg hne]
  have hcapne : cap ≠ [] := by
    rw [hcap]
    split
    · intro h
      have hlen := congrArg List.length h
      rw [List.length_drop] at hlen
      simp only [List.length_nil] at hlen
      omega
    · simp
  obtain ⟨e0, bt, hb⟩ := List.exists_cons_of_ne_nil hcapne
  have hget : alist_get (alist_set st.buckets rid cap) rid = some (e0 :: bt) := by
    rw [alist_get_set_self, hb]
  have hflush := flushRunToDisk_nonempty now
    { st with buckets := alist_set st.buckets rid cap } rid e0 bt hget
  have hlen : cap.length ≤ 20000 := by
    rw [hcap]
    split
    · rw [List.length_drop]
      omega
    · omega
  refine ⟨cap, ?_, hcap, hlen, ?_⟩
  · rw [happ, hflush]
    exact alist_get_set_self st.buckets rid cap
  · rw [happ, hflush]
    refine ⟨(runFileForId st.filePaths rid (pyOr (jGetD e0 "ts") (.num now))).1,
      ⟨rid, pyOr (jGetD e0 "ts") (.num now), now, runSummaryStatus (e0 :: bt),
       levelCounts (e0 :: bt), lastProblem (e0 :: bt), e0 :: bt⟩, rfl, rfl, ?_, ?_⟩
    · rw [hb]
    · rw [hb]

/-! ## Claim C7 -/

/-- Claim C7: a run document's `summary.status` is `failed` exactly when the
run holds an error-level event or an event whose (lower-cased) name contains
`failed` or ends with `error` (the `_error` test of the code is subsumed);
otherwise `warning` exactly when it holds a warn/warning-level event;
otherwise `ok`.  Every `_append_run_event` call with a valid run id caps the
bucket at 20000 entries (oldest dropped) and rewrites the run document via
one write-to-temp followed by one rename-over-target, the document carrying
the recomputed status of exactly the bucket's events. -/
theorem c7_run_summary_status :
    (∀ evs : List JVal,
      (runSummaryStatus evs = "failed" ↔
        ∃ e ∈ evs, levelOf e = "error" ∨ eventSignalsFailure e = true) ∧
      (runSummaryStatus evs = "warning" ↔
        (¬ ∃ e ∈ evs, levelOf e = "error" ∨ eventSignalsFailure e = true) ∧
        ∃ e ∈ evs, levelOf e = "warn" ∨ levelOf e = "warning") ∧
      (runSummaryStatus evs = "ok" ↔
        (¬ ∃ e ∈ evs, levelOf e = "error" ∨ eventSignalsFailure e = true) ∧
        (¬ ∃ e ∈ evs, levelOf e = "warn" ∨ levelOf e = "warning"))) ∧
    (∀ e : JVal, eventSignalsFailure e = true ↔
      (containsSub "failed".data (eventNameOf e).data = true ∨
       List.isSuffixOf "error".data (eventNameOf e).data = true)) ∧
    (∀ (st : RunLogState) (rid : String) (efs : List (String × JVal)) (now : Nat),
      rid ≠ "" →
      ∃ bu : List JVal,
        alist_get (appendRunEvent now st (.str rid) (.obj efs)).buckets rid = some bu ∧
        bu = (if ((alist_get st.buckets rid).getD [] ++ [JVal.obj efs]).length > 20000
              then ((alist_get st.buckets rid).getD [] ++ [JVal.obj efs]).drop
                   (((alist_get st.buckets rid).getD [] ++ [JVal.obj efs]).length - 20000)
              else (alist_get st.buckets rid).getD [] ++ [JVal.obj efs]) ∧
        bu.length ≤ 20000 ∧
        ∃ (path : String) (doc : RunDoc),
          (appendRunEvent now st (.str rid) (.obj efs)).ops =
            st.ops ++ [.writeTmp (path ++ ".tmp") doc,
                       .renameOver (path ++ ".tmp") path] ∧
          doc.run_id = rid ∧ doc.status = runSummaryStatus bu ∧ doc.events = bu) := by
  exact ⟨fun evs => ⟨runSummaryStatus_failed_iff evs, runSummaryStatus_warning_iff evs,
    runSummaryStatus_ok_iff evs⟩, eventSignalsFailure_iff, appendRunEvent_spec⟩

/-- Claim C7, witness: an event named `capture_failed` forces `failed` even
at info level; a `stt_error`-named event forces `failed`; and a concrete
append emits the write-temp/rename pair. -/
theorem c7_witness :
    runSummaryStatus [JVal.obj [("event", .str "capture_failed")]] = "failed" ∧
    runSummaryStatus [JVal.obj [("level", .str "info"), ("event", .str "stt_error")]] = "failed" ∧
    runSummaryStatus [JVal.obj [("level", .str "warn"), ("event", .str "x")]] = "warning" ∧
    runSummaryStatus [JVal.obj [("level", .str "info"), ("event", .str "x")]] = "ok" ∧
    (∃ bu : List JVal,
      alist_get (appendRunEvent 7 ⟨[], [], []⟩ (.str "log1")
        (.obj [("ts", .num 5), ("level", .str "info"), ("event", .str "boot")])).buckets
        "log1" = some bu ∧
      bu = (if ((alist_get (⟨[], [], []⟩ : RunLogState).buckets "log1").getD [] ++
              [JVal.obj [("ts", .num 5), ("level", .str "info"), ("event", .str "boot")]]).length > 20000
            then ((alist_get (⟨[], [], []⟩ : RunLogState).buckets "log1").getD [] ++
              [JVal.obj [("ts", .num 5), ("level", .str "info"), ("event", .str "boot")]]).drop
                 (((alist_get (⟨[], [], []⟩ : RunLogState).buckets "log1").getD [] ++
              [JVal.obj [("ts", .num 5), ("level", .str "info"), ("event", .str "boot")]]).length - 20000)
            else (alist_get (⟨[], [], []⟩ : RunLogState).buckets "log1").getD [] ++
              [JVal.obj [("ts", .num 5), ("level", .str "info"), ("event", .str "boot")]]) ∧
      bu.length ≤ 20000 ∧
      ∃ (path : String) (doc : RunDoc),
        (appendRunEvent 7 ⟨[], [], []⟩ (.str "log1")
          (.obj [("ts", .num 5), ("level", .str "info"), ("event", .str "boot")])).ops =
          (⟨[], [], []⟩ : RunLogState).ops ++
            [.writeTmp (path ++ ".tmp") doc, .renameOver (path ++ ".tmp") path] ∧
        doc.run_id = "log1" ∧ doc.status = runSummaryStatus bu ∧ doc.events = bu) := by
  refine ⟨?_, ?_, ?_, ?_, ?_⟩
  · exact (c7_run_summary_status.1 _).1.mpr
      ⟨JVal.obj [("event", .str "capture_failed")], List.mem_singleton_self _,
       Or.inr (by decide)⟩
  · exact (c7_run_summary_status.1 _).1.mpr
      ⟨JVal.obj [("level", .str "info"), ("event", .str "stt_error")],
       List.mem_singleton_self _, Or.inr (by decide)⟩
  · exact (c7_run_summary_status.1 _).2.1.mpr
      ⟨by rintro ⟨e, he, hd⟩; rw [List.mem_singleton] at he; subst he;
          rcases hd with h | h <;> revert h <;> decide,
       ⟨JVal.obj [("level", .str "warn"), ("event", .str "x")],
        List.mem_singleton_self _, Or.inl (by decide)⟩⟩
  · exact (c7_run_summary_status.1 _).2.2.mpr
      ⟨by rintro ⟨e, he, hd⟩; rw [List.mem_singleton] at he; subst he;
          rcases hd with h | h <;> revert h <;> decide,
       by rintro ⟨e, he, hd⟩; rw [List.mem_singleton] at he; subst he;
          rcases hd with h | h <;> revert h <;> decide⟩
  · exact c7_run_summary_status.2.2 ⟨[], [], []⟩ "log1"
      [("ts", .num 5), ("level", .str "info"), ("event", .str "boot")] 7 (by decide)

/-! ## Facts about the noise classifier and the Response Handler -/

/-- The noise classifier, characterized the way the spec words it: noise
exactly when the trimmed lower-cased text is empty, or shorter than 2
characters, or its alphanumeric-only core is empty, or that core is 5+
repetitions of one identical character, or the text consists entirely of
characters of the fixed punctuation/whitespace symbol set. -/
theorem looksLikeNoise_iff (text : String) (t : List Char)
    (ht : t = (pyStripChars text.data).map Char.toLower) :
    (looksLikeNoise text = true ↔
      (t = [] ∨ t.length < 2 ∨ t.filter isLowerAlnum = [] ∨
       (∃ (c : Char) (n : Nat), t.filter isLowerAlnum = List.replicate n c ∧ 5 ≤ n) ∨
       (∀ c ∈ t, isNoiseSymbol c = true))) := by
  subst ht
  unfold looksLikeNoise
  by_cases hemp : ((pyStripChars text.data).map Char.toLower).isEmpty = true
  · rw [if_pos hemp]
    simp only [List.isEmpty_iff] at hemp
    exact ⟨fun _ => Or.inl hemp, fun _ => rfl⟩
  · rw [if_neg hemp]
    by_cases hlen : ((pyStripChars text.data).map Char.toLower).length < 2
    · rw [if_pos hlen]
      exact ⟨fun _ => Or.inr (Or.inl hlen), fun _ => rfl⟩
    · rw [if_neg hlen]
      simp only [List.isEmpty_iff] at hemp
      cases hcore : ((pyStripChars text.data).map Char.toLower).filter isLowerAlnum with
      | nil =>
        exact ⟨fun _ => Or.inr (Or.inr (Or.inl rfl)), fun _ => rfl⟩
      | cons c rest =>
        show ((if (rest.all fun d => d == c) = true ∧ 5 ≤ (c :: rest).length then true
               else if ((pyStripChars text.data).map Char.toLower).all isNoiseSymbol = true
                 then true else false) = true) ↔ _
        by_cases hrep : (rest.all (fun d => d == c)) = true ∧ 5 ≤ (c :: rest).length
        · rw [if_pos hrep]
          constructor
          · intro _
            right; right; right; left
            refine ⟨c, (c :: rest).length, ?_, hrep.2⟩
            rw [List.eq_replicate_iff]
            refine ⟨rfl, ?_⟩
            intro b hb
            rcases List.mem_cons.mp hb with hb | hb
            · exact hb
            · have := List.all_eq_true.mp hrep.1 b hb
              exact eq_of_beq this
          · intro _; rfl
        · rw [if_neg hrep]
          by_cases hsym : (((pyStripChars text.data).map Char.toLower).all isNoiseSymbol) = true
          · rw [if_pos hsym]
            constructor
            · intro _
              right; right; right; right
              exact List.all_eq_true.mp hsym
            · intro _; rfl
          · rw [if_neg hsym]
            constructor
            · intro h; exact absurd h (by decide)
            · intro h
              exfalso
              rcases h with h | h | h | ⟨c', n, hr, hn⟩ | h
              · exact hemp h
              · exact hlen h
              · exact List.noConfusion h
              · have hlen' := congrArg List.length hr
                rw [List.length_replicate] at hlen'
                have hcc : c = c' :=
                  (List.eq_replicate_iff.mp hr).2 c (List.mem_cons_self _ _)
                apply hrep
                constructor
                · rw [List.all_eq_true]
                  intro d hd
                  have hd' := (List.eq_replicate_iff.mp hr).2 d (List.mem_cons_of_mem _ hd)
                  rw [hd', hcc]
                  exact beq_self_eq_true c'
                · rw [hlen']; exact hn
              · apply hsym
                rw [List.all_eq_true]
                exact h

/-- What `_handle_student_response` does on a noise text: drops the segment,
touches no mailbox, logs exactly `student_response_dropped_noise` at warn
level, and reports dropped. -/
theorem handler_noise_spec (now : Nat) (freshSegId : String)
    (capture : CaptureOutcome) (st : RouteState) (sender : JVal)
    (mfs : List (String × JVal)) (injBy : Option String) (t0 : String)
    (htext : jGetD (.obj mfs) "text" = .str t0)
    (hne : pyStrip t0 ≠ "")
    (hnoise : looksLikeNoise (pyStrip t0) = true)
    (hfresh : freshSegId ≠ "") :
    ∃ (sid rid : String) (st' : RouteState),
      handleStudentResponse now freshSegId capture st sender (.obj mfs) injBy =
        (st', .droppedNoise sid rid) ∧
      sid ≠ "" ∧
      st'.ai = st.ai ∧ st'.teacher = st.teacher ∧ st'.classQ = st.classQ ∧
      st'.stt = st.stt ∧
      st'.events = st.events ++ [⟨"student_response_dropped_noise", "warn"⟩] ∧
      statusOf st' sid = some "dropped" := by
  simp only [handleStudentResponse, htext, pyOr_str_empty, pyStr]
  rw [if_neg hne]
  simp only [hnoise, if_true]
  refine ⟨_, _, _, rfl, ?_, ?_, ?_, ?_, ?_, ?_, ?_⟩
  · exact pyStr_pyOr_fallback_ne _ freshSegId hfresh
  · show (pipelineUpsertSegment _ now _ _).ai = st.ai
    exact (upsert_preserves _ now _ _).1
  · show (pipelineUpsertSegment _ now _ _).teacher = st.teacher
    exact (upsert_preserves _ now _ _).2.1
  · show (pipelineUpsertSegment _ now _ _).classQ = st.classQ
    exact (upsert_preserves _ now _ _).2.2.1
  · show (pipelineUpsertSegment _ now _ _).stt = st.stt
    exact (upsert_preserves _ now _ _).2.2.2.1
  · show (pipelineUpsertSegment _ now _ _).events ++ _ = st.events ++ _
    rw [(upsert_preserves _ now _ _).2.2.2.2.1]
  · show statusOf (pipelineUpsertSegment _ now _ _) _ = some "dropped"
    exact statusOf_upsert_self _ now _ _ "dropped"
      (pyStr_pyOr_fallback_ne _ freshSegId hfresh) rfl

/-! ## Claim C1 -/

/-- Claim C1, counterexample: on the noise input `"..."` the Response
Handler drops the segment and returns dropped, but the event it logs is
named `student_response_dropped_noise` — no event named
`response_dropped_noise` (the name the claim states) is ever logged. -/
theorem c1_counterexample :
    looksLikeNoise "..." = true ∧
    ((handleStudentResponse 1000 "segF" .noBridge (emptyRouteState [])
        (.str "stt")
        (JVal.obj [("text", .str "..."),
          ("meta", .obj [("segment_id", .str "segA"), ("flow_run_id", .str "run1")])])
        none).1.events.map (fun e => e.event)) =
      ["student_response_dropped_noise"] ∧
    "response_dropped_noise" ∉
      ((handleStudentResponse 1000 "segF" .noBridge (emptyRouteState [])
        (.str "stt")
        (JVal.obj [("text", .str "..."),
          ("meta", .obj [("segment_id", .str "segA"), ("flow_run_id", .str "run1")])])
        none).1.events.map (fun e => e.event)) ∧
    (handleStudentResponse 1000 "segF" .noBridge (emptyRouteState [])
        (.str "stt")
        (JVal.obj [("text", .str "..."),
          ("meta", .obj [("segment_id", .str "segA"), ("flow_run_id", .str "run1")])])
        none).2 = .droppedNoise "segA" "run1" := by
  exact ⟨by decide, rfl, by decide, rfl⟩

/-- Claim C1 (amended): the noise classifier holds exactly as the claim
words it (empty / shorter than 2 / empty alphanumeric core / 5+ repeats of
one character / all characters from the fixed symbol set), with the stated
examples; for every student_response whose trimmed text is non-empty noise,
the handler sets the segment status to `dropped`, enqueues nothing to any
mailbox, logs the event `student_response_dropped_noise` (not
`response_dropped_noise` as the claim said) at warning level, and returns
ok/dropped. -/
theorem c1_noise_classification :
    (∀ (text : String) (t : List Char),
      t = (pyStripChars text.data).map Char.toLower →
      (looksLikeNoise text = true ↔
        (t = [] ∨ t.length < 2 ∨ t.filter isLowerAlnum = [] ∨
         (∃ (c : Char) (n : Nat), t.filter isLowerAlnum = List.replicate n c ∧ 5 ≤ n) ∨
         (∀ c ∈ t, isNoiseSymbol c = true)))) ∧
    (looksLikeNoise "" = true ∧ looksLikeNoise "." = true ∧
     looksLikeNoise "..." = true ∧ looksLikeNoise "aaaaa" = true ∧
     looksLikeNoise "Hello teacher" = false ∧ looksLikeNoise "ok" = false) ∧
    (∀ (now : Nat) (freshSegId : String) (capture : CaptureOutcome)
       (st : RouteState) (sender : JVal) (mfs : List (String × JVal))
       (injBy : Option String) (t0 : String),
      jGetD (.obj mfs) "text" = .str t0 →
      pyStrip t0 ≠ "" →
      looksLikeNoise (pyStrip t0) = true →
      freshSegId ≠ "" →
      ∃ (sid rid : String) (st' : RouteState),
        handleStudentResponse now freshSegId capture st sender (.obj mfs) injBy =
          (st', .droppedNoise sid rid) ∧
        sid ≠ "" ∧
        st'.ai = st.ai ∧ st'.teacher = st.teacher ∧ st'.classQ = st.classQ ∧
        st'.stt = st.stt ∧
        st'.events = st.events ++ [⟨"student_response_dropped_noise", "warn"⟩] ∧
        statusOf st' sid = some "dropped") := by
  exact ⟨looksLikeNoise_iff,
    ⟨by decide, by decide, by decide, by decide, by decide, by decide⟩,
    handler_noise_spec⟩

/-- Claim C1, witness: the amended theorem applied to the concrete noise
input `"..."` with segment id `segA` and run id `run1`. -/
theorem c1_witness :
    ∃ (sid rid : String) (st' : RouteState),
      handleStudentResponse 1000 "segF" .noBridge (emptyRouteState [])
          (.str "stt")
          (JVal.obj [("text", .str "..."),
            ("meta", .obj [("segment_id", .str "segA"), ("flow_run_id", .str "run1")])])
          none =
        (st', .droppedNoise sid rid) ∧
      sid ≠ "" ∧
      st'.ai = (emptyRouteState []).ai ∧
      st'.teacher = (emptyRouteState []).teacher ∧
      st'.classQ = (emptyRouteState []).classQ ∧
      st'.stt = (emptyRouteState []).stt ∧
      st'.events = (emptyRouteState []).events ++
        [⟨"student_response_dropped_noise", "warn"⟩] ∧
      statusOf st' sid = some "dropped" := by
  exact c1_noise_classification.2.2 1000 "segF" .noBridge (emptyRouteState [])
    (.str "stt")
    [("text", .str "..."),
     ("meta", .obj [("segment_id", .str "segA"), ("flow_run_id", .str "run1")])]
    none "..." rfl (by decide) (by decide) (by decide)

theorem enqueueRole_ai (st : RouteState) (env : Envelope) :
    (enqueueRole st "ai" env).ai = st.ai ++ [env] := by
  unfold enqueueRole
  simp

theorem enqueueRole_preserves_rest (st : RouteState) (r : String) (env : Envelope) :
    (enqueueRole st r env).segments = st.segments ∧
    (enqueueRole st r env).events = st.events ∧
    (enqueueRole st r env).runIds = st.runIds := by
  unfold enqueueRole
  split
  · exact ⟨rfl, rfl, rfl⟩
  · split
    · exact ⟨rfl, rfl, rfl⟩
    · split
      · exact ⟨rfl, rfl, rfl⟩
      · split
        · exact ⟨rfl, rfl, rfl⟩
        · exact ⟨rfl, rfl, rfl⟩

theorem capture_preserves_mailboxes (outc : CaptureOutcome) (st : RouteState)
    (now : Nat) (rid sid : String) :
    (captureAudioForSegment outc st now rid sid).1.ai = st.ai ∧
    (captureAudioForSegment outc st now rid sid).1.teacher = st.teacher ∧
    (captureAudioForSegment outc st now rid sid).1.classQ = st.classQ ∧
    (captureAudioForSegment outc st now rid sid).1.stt = st.stt := by
  cases outc with
  | noBridge => exact ⟨rfl, rfl, rfl, rfl⟩
  | failure e => exact ⟨rfl, rfl, rfl, rfl⟩
  | success r =>
    refine ⟨?_, ?_, ?_, ?_⟩
    · exact (upsert_preserves _ now _ _).1
    · exact (upsert_preserves _ now _ _).2.1
    · exact (upsert_preserves _ now _ _).2.2.1
    · exact (upsert_preserves _ now _ _).2.2.2.1

theorem sent_tail_statusOf (stX : RouteState) (now : Nat) (sid : String)
    (u : SegmentUpdates) (e l : String) (hs : u.status = some "sent")
    (hsid : sid ≠ "") :
    statusOf (logEvent (pipelineUpsertSegment stX now sid u) e l) sid =
      some "sent" := by
  show statusOf (pipelineUpsertSegment stX now sid u) sid = some "sent"
  exact statusOf_upsert_self stX now sid u "sent" hsid hs

theorem sent_tail_ai (st3 : RouteState) (now : Nat) (sid1 sid2 : String)
    (u1 u2 : SegmentUpdates) (sender payload : JVal) :
    (logEvent (pipelineUpsertSegment (enqueueMsg (logEvent
        (pipelineUpsertSegment st3 now sid1 u1) "stt_segment_finalized" "info")
        "ai" sender payload) now sid2 u2) "student_response_sent" "info").ai =
      st3.ai ++ [⟨sender, payload⟩] := by
  show (pipelineUpsertSegment (enqueueMsg (logEvent
      (pipelineUpsertSegment st3 now sid1 u1) "stt_segment_finalized" "info")
      "ai" sender payload) now sid2 u2).ai = st3.ai ++ [⟨sender, payload⟩]
  rw [(upsert_preserves _ _ _ _).1]
  show (enqueueRole (logEvent (pipelineUpsertSegment st3 now sid1 u1)
      "stt_segment_finalized" "info") "ai" ⟨sender, payload⟩).ai =
    st3.ai ++ [⟨sender, payload⟩]
  rw [enqueueRole_ai]
  show (pipelineUpsertSegment st3 now sid1 u1).ai ++ [⟨sender, payload⟩] =
    st3.ai ++ [⟨sender, payload⟩]
  rw [(upsert_preserves _ _ _ _).1]

theorem sent_tail_teacher (st3 : RouteState) (now : Nat) (sid1 sid2 : String)
    (u1 u2 : SegmentUpdates) (sender payload : JVal) :
    (logEvent (pipelineUpsertSegment (enqueueMsg (logEvent
        (pipelineUpsertSegment st3 now sid1 u1) "stt_segment_finalized" "info")
        "ai" sender payload) now sid2 u2) "student_response_sent" "info").teacher =
      st3.teacher := by
  show (pipelineUpsertSegment (enqueueMsg (logEvent
      (pipelineUpsertSegment st3 now sid1 u1) "stt_segment_finalized" "info")
      "ai" sender payload) now sid2 u2).teacher = st3.teacher
  rw [(upsert_preserves _ _ _ _).2.1]
  show (enqueueRole (logEvent (pipelineUpsertSegment st3 now sid1 u1)
      "stt_segment_finalized" "info") "ai" ⟨sender, payload⟩).teacher = st3.teacher
  unfold enqueueRole
  simp only [if_pos rfl]
  show (pipelineUpsertSegment st3 now sid1 u1).teacher = st3.teacher
  exact (upsert_preserves _ _ _ _).2.1

theorem sent_tail_classQ (st3 : RouteState) (now : Nat) (sid1 sid2 : String)
    (u1 u2 : SegmentUpdates) (sender payload : JVal) :
    (logEvent (pipelineUpsertSegment (enqueueMsg (logEvent
        (pipelineUpsertSegment st3 now sid1 u1) "stt_segment_finalized" "info")
        "ai" sender payload) now sid2 u2) "student_response_sent" "info").classQ =
      st3.classQ := by
  show (pipelineUpsertSegment (enqueueMsg (logEvent
      (pipelineUpsertSegment st3 now sid1 u1) "stt_segment_finalized" "info")
      "ai" sender payload) now sid2 u2).classQ = st3.classQ
  rw [(upsert_preserves _ _ _ _).2.2.1]
  show (enqueueRole (logEvent (pipelineUpsertSegment st3 now sid1 u1)
      "stt_segment_finalized" "info") "ai" ⟨sender, payload⟩).classQ = st3.classQ
  unfold enqueueRole
  simp only [if_pos rfl]
  show (pipelineUpsertSegment st3 now sid1 u1).classQ = st3.classQ
  exact (upsert_preserves _ _ _ _).2.2.1

theorem sent_tail_stt (st3 : RouteState) (now : Nat) (sid1 sid2 : String)
    (u1 u2 : SegmentUpdates) (sender payload : JVal) :
    (logEvent (pipelineUpsertSegment (enqueueMsg (logEvent
        (pipelineUpsertSegment st3 now sid1 u1) "stt_segment_finalized" "info")
        "ai" sender payload) now sid2 u2) "student_response_sent" "info").stt =
      st3.stt := by
  show (pipelineUpsertSegment (enqueueMsg (logEvent
      (pipelineUpsertSegment st3 now sid1 u1) "stt_segment_finalized" "info")
      "ai" sender payload) now sid2 u2).stt = st3.stt
  rw [(upsert_preserves _ _ _ _).2.2.2.1]
  show (enqueueRole (logEvent (pipelineUpsertSegment st3 now sid1 u1)
      "stt_segment_finalized" "info") "ai" ⟨sender, payload⟩).stt = st3.stt
  unfold enqueueRole
  simp only [if_pos rfl]
  show (pipelineUpsertSegment st3 now sid1 u1).stt = st3.stt
  exact (upsert_preserves _ _ _ _).2.2.2.1

theorem sent_tail_events (st3 : RouteState) (now : Nat) (sid1 sid2 : String)
    (u1 u2 : SegmentUpdates) (sender payload : JVal) :
    (logEvent (pipelineUpsertSegment (enqueueMsg (logEvent
        (pipelineUpsertSegment st3 now sid1 u1) "stt_segment_finalized" "info")
        "ai" sender payload) now sid2 u2) "student_response_sent" "info").events =
      st3.events ++ [⟨"stt_segment_finalized", "info"⟩, ⟨"enqueue", "info"⟩,
        ⟨"student_response_sent", "info"⟩] := by
  show (pipelineUpsertSegment (enqueueMsg (logEvent
      (pipelineUpsertSegment st3 now sid1 u1) "stt_segment_finalized" "info")
      "ai" sender payload) now sid2 u2).events ++
      [⟨"student_response_sent", "info"⟩] = _
  rw [(upsert_preserves _ _ _ _).2.2.2.2.1]
  show ((enqueueRole (logEvent (pipelineUpsertSegment st3 now sid1 u1)
      "stt_segment_finalized" "info") "ai" ⟨sender, payload⟩).events ++
      [⟨"enqueue", "info"⟩]) ++ [⟨"student_response_sent", "info"⟩] = _
  rw [(enqueueRole_preserves_rest _ _ _).2.1]
  show (((pipelineUpsertSegment st3 now sid1 u1).events ++
      [⟨"stt_segment_finalized", "info"⟩]) ++ [⟨"enqueue", "info"⟩]) ++
      [⟨"student_response_sent", "info"⟩] = _
  rw [(upsert_preserves _ _ _ _).2.2.2.2.1]
  simp

/-- What `_handle_student_response` does on a valid non-noise text: the
canonical payload is enqueued to the `ai` mailbox (and nowhere else), the
segment ends at status `sent`, and the handler reports success with
`dropped = False`. -/
theorem handler_nonnoise_spec (now : Nat) (freshSegId : String)
    (capture : CaptureOutcome) (st : RouteState) (sender : JVal)
    (mfs : List (String × JVal)) (injBy : Option String) (t0 : String)
    (htext : jGetD (.obj mfs) "text" = .str t0)
    (hne : pyStrip t0 ≠ "")
    (hnn : looksLikeNoise (pyStrip t0) = false)
    (hfresh : freshSegId ≠ "") :
    ∃ (sid rid : String) (st' : RouteState) (aref payload : JVal),
      handleStudentResponse now freshSegId capture st sender (.obj mfs) injBy =
        (st', .sentOk sid rid aref payload) ∧
      sid ≠ "" ∧
      statusOf st' sid = some "sent" ∧
      st'.ai = st.ai ++ [⟨sender, payload⟩] ∧
      st'.teacher = st.teacher ∧ st'.classQ = st.classQ ∧ st'.stt = st.stt := by
  simp only [handleStudentResponse, htext, pyOr_str_empty, pyStr]
  rw [if_neg hne]
  simp only [hnn, Bool.false_eq_true, if_false]
  by_cases hb : jTruthy (jGetD
      (match jGetD (JVal.obj mfs) "meta" with
       | JVal.obj ms => JVal.obj ms
       | _ => JVal.obj []) "audio_ref") = true
  · simp only [hb, if_true]
    refine ⟨_, _, _, _, _, rfl, ?_, ?_, ?_, ?_, ?_, ?_⟩
    · exact pyStr_pyOr_fallback_ne _ freshSegId hfresh
    · exact sent_tail_statusOf _ now _ _ _ _ rfl
        (pyStr_pyOr_fallback_ne _ freshSegId hfresh)
    · rw [sent_tail_ai]
    · rw [sent_tail_teacher]
    · rw [sent_tail_classQ]
    · rw [sent_tail_stt]
  · simp only [hb, Bool.false_eq_true, if_false]
    refine ⟨_, _, _, _, _, rfl, ?_, ?_, ?_, ?_, ?_, ?_⟩
    · exact pyStr_pyOr_fallback_ne _ freshSegId hfresh
    · exact sent_tail_statusOf _ now _ _ _ _ rfl
        (pyStr_pyOr_fallback_ne _ freshSegId hfresh)
    · rw [sent_tail_ai]
      rw [(capture_preserves_mailboxes _ _ now _ _).1]
    · rw [sent_tail_teacher]
      exact (capture_preserves_mailboxes _ _ now _ _).2.1
    · rw [sent_tail_classQ]
      exact (capture_preserves_mailboxes _ _ now _ _).2.2.1
    · rw [sent_tail_stt]
      exact (capture_preserves_mailboxes _ _ now _ _).2.2.2

/-! ## Claim C2 -/

/-- Claim C2, counterexample: `_pipeline_upsert_segment` has no
terminal-state guard, so reusing a segment id across Response Handler
invocations regresses a `dropped` segment to `sent`: a noise call on
segment `segA` leaves it `dropped`, and a later non-noise call with the
same segment id moves it to `sent` — contradicting the claim that
`dropped` is terminal and a dropped segment never reaches `sent`. -/
theorem c2_counterexample :
    statusOf (handleStudentResponse 1000 "f1" .noBridge (emptyRouteState [])
      (.str "stt")
      (JVal.obj [("text", .str "."),
        ("meta", .obj [("segment_id", .str "segA"), ("flow_run_id", .str "run1")])])
      none).1 "segA" = some "dropped" ∧
    statusOf (handleStudentResponse 2000 "f2" .noBridge
      (handleStudentResponse 1000 "f1" .noBridge (emptyRouteState [])
        (.str "stt")
        (JVal.obj [("text", .str "."),
          ("meta", .obj [("segment_id", .str "segA"), ("flow_run_id", .str "run1")])])
        none).1
      (.str "stt")
      (JVal.obj [("text", .str "hello there"),
        ("meta", .obj [("segment_id", .str "segA"), ("flow_run_id", .str "run1"),
          ("audio_ref", .str "x.wav")])])
      none).1 "segA" = some "sent" := by
  exact ⟨rfl, rfl⟩

/-- Claim C2 (amended): within a single Response Handler invocation the
statuses are as claimed — a noise invocation sets the segment to `dropped`,
enqueues nothing and never marks it `sent`, while a non-noise invocation
ends the segment at `sent` with exactly one `ai` enqueue and never marks it
`dropped`.  Across invocations there is no guard: `_pipeline_upsert_segment`
overwrites the status unconditionally, so reusing a segment id can move a
`dropped` segment to `sent` (see the counterexample); the claimed
cross-invocation terminality does not hold. -/
theorem c2_segment_monotonicity :
    (∀ (now : Nat) (freshSegId : String) (capture : CaptureOutcome)
       (st : RouteState) (sender : JVal) (mfs : List (String × JVal))
       (injBy : Option String) (t0 : String),
      jGetD (.obj mfs) "text" = .str t0 →
      pyStrip t0 ≠ "" →
      looksLikeNoise (pyStrip t0) = true →
      freshSegId ≠ "" →
      ∃ (sid rid : String) (st' : RouteState),
        handleStudentResponse now freshSegId capture st sender (.obj mfs) injBy =
          (st', .droppedNoise sid rid) ∧
        sid ≠ "" ∧
        st'.ai = st.ai ∧ st'.teacher = st.teacher ∧ st'.classQ = st.classQ ∧
        st'.stt = st.stt ∧
        st'.events = st.events ++ [⟨"student_response_dropped_noise", "warn"⟩] ∧
        statusOf st' sid = some "dropped") ∧
    (∀ (now : Nat) (freshSegId : String) (capture : CaptureOutcome)
       (st : RouteState) (sender : JVal) (mfs : List (String × JVal))
       (injBy : Option String) (t0 : String),
      jGetD (.obj mfs) "text" = .str t0 →
      pyStrip t0 ≠ "" →
      looksLikeNoise (pyStrip t0) = false →
      freshSegId ≠ "" →
      ∃ (sid rid : String) (st' : RouteState) (aref payload : JVal),
        handleStudentResponse now freshSegId capture st sender (.obj mfs) injBy =
          (st', .sentOk sid rid aref payload) ∧
        sid ≠ "" ∧
        statusOf st' sid = some "sent" ∧
        st'.ai = st.ai ++ [⟨sender, payload⟩] ∧
        st'.teacher = st.teacher ∧ st'.classQ = st.classQ ∧ st'.stt = st.stt) :=
  ⟨handler_noise_spec, handler_nonnoise_spec⟩

/-- Claim C2, witness: the amended theorem applied to a concrete noise call
(text `"."`) and a concrete non-noise call (text `"What is your name?"`). -/
theorem c2_witness :
    (∃ (sid rid : String) (st' : RouteState),
      handleStudentResponse 1000 "f1" .noBridge (emptyRouteState []) (.str "stt")
          (JVal.obj [("text", .str "."),
            ("meta", .obj [("segment_id", .str "segB"), ("flow_run_id", .str "run2")])])
          none =
        (st', .droppedNoise sid rid) ∧
      sid ≠ "" ∧
      st'.ai = (emptyRouteState []).ai ∧
      st'.teacher = (emptyRouteState []).teacher ∧
      st'.classQ = (emptyRouteState []).classQ ∧
      st'.stt = (emptyRouteState []).stt ∧
      st'.events = (emptyRouteState []).events ++
        [⟨"student_response_dropped_noise", "warn"⟩] ∧
      statusOf st' sid = some "dropped") ∧
    (∃ (sid rid : String) (st' : RouteState) (aref payload : JVal),
      handleStudentResponse 1000 "f1" .noBridge (emptyRouteState []) (.str "stt")
          (JVal.obj [("text", .str "What is your name?"),
            ("meta", .obj [("segment_id", .str "segC"), ("flow_run_id", .str "run2")])])
          none =
        (st', .sentOk sid rid aref payload) ∧
      sid ≠ "" ∧
      statusOf st' sid = some "sent" ∧
      st'.ai = (emptyRouteState []).ai ++ [⟨.str "stt", payload⟩] ∧
      st'.teacher = (emptyRouteState []).teacher ∧
      st'.classQ = (emptyRouteState []).classQ ∧
      st'.stt = (emptyRouteState []).stt) := by
  constructor
  · exact c2_segment_monotonicity.1 1000 "f1" .noBridge (emptyRouteState [])
      (.str "stt")
      [("text", .str "."),
       ("meta", .obj [("segment_id", .str "segB"), ("flow_run_id", .str "run2")])]
      none "." rfl (by decide) (by decide) (by decide)
  · exact c2_segment_monotonicity.2 1000 "f1" .noBridge (emptyRouteState [])
      (.str "stt")
      [("text", .str "What is your name?"),
       ("meta", .obj [("segment_id", .str "segC"), ("flow_run_id", .str "run2")])]
      none "What is your name?" rfl (by decide) (by decide) (by decide)

/-- What `_handle_student_response` does on a valid non-noise text with no
supplied `audio_ref` when the Audio Capture Service raises: the failure is
logged at warn level and swallowed, `audio_ref` stays null in the result
and in the enqueued payload, the payload is still delivered to the `ai`
mailbox, the segment still ends `sent`, and the handler still reports
success with `dropped = False`. -/
theorem handler_capture_failure_spec (now : Nat) (freshSegId err : String)
    (st : RouteState) (sender : JVal) (mfs ms : List (String × JVal))
    (injBy : Option String) (t0 : String)
    (htext : jGetD (.obj mfs) "text" = .str t0)
    (hne : pyStrip t0 ≠ "")
    (hnn : looksLikeNoise (pyStrip t0) = false)
    (hfresh : freshSegId ≠ "")
    (hmeta : jGetD (.obj mfs) "meta" = .obj ms)
    (haref : jTruthy (jGetD (.obj ms) "audio_ref") = false) :
    ∃ (sid rid : String) (st' : RouteState) (payload : JVal),
      handleStudentResponse now freshSegId (.failure err) st sender (.obj mfs)
          injBy =
        (st', .sentOk sid rid .null payload) ∧
      sid ≠ "" ∧
      jGetD (jGetD payload "meta") "audio_ref" = .null ∧
      statusOf st' sid = some "sent" ∧
      st'.ai = st.ai ++ [⟨sender, payload⟩] ∧
      st'.events = st.events ++
        [⟨"audio_segment_capture_failed", "warn"⟩,
         ⟨"stt_segment_finalized", "info"⟩, ⟨"enqueue", "info"⟩,
         ⟨"student_response_sent", "info"⟩] := by
  cases injBy with
  | none =>
    simp only [handleStudentResponse, htext, pyOr_str_empty, pyStr, hmeta]
    rw [if_neg hne]
    simp only [hnn, Bool.false_eq_true, if_false, haref, captureAudioForSegment,
      buildStudentResponsePayload]
    refine ⟨_, _, _, _, rfl, ?_, ?_, ?_, ?_, ?_⟩
    · exact pyStr_pyOr_fallback_ne _ freshSegId hfresh
    · rfl
    · exact sent_tail_statusOf _ now _ _ _ _ rfl
        (pyStr_pyOr_fallback_ne _ freshSegId hfresh)
    · rw [sent_tail_ai]
      rfl
    · rw [sent_tail_events]
      simp [logEvent]
  | some ib =>
    by_cases hib : ib ≠ ""
    · simp only [handleStudentResponse, htext, pyOr_str_empty, pyStr, hmeta]
      rw [if_neg hne]
      simp only [hnn, Bool.false_eq_true, if_false, haref, captureAudioForSegment,
        buildStudentResponsePayload]
      rw [if_pos hib]
      refine ⟨_, _, _, _, rfl, ?_, ?_, ?_, ?_, ?_⟩
      · exact pyStr_pyOr_fallback_ne _ freshSegId hfresh
      · rfl
      · exact sent_tail_statusOf _ now _ _ _ _ rfl
          (pyStr_pyOr_fallback_ne _ freshSegId hfresh)
      · rw [sent_tail_ai]
        rfl
      · rw [sent_tail_events]
        simp [logEvent]
    · simp only [handleStudentResponse, htext, pyOr_str_empty, pyStr, hmeta]
      rw [if_neg hne]
      simp only [hnn, Bool.false_eq_true, if_false, haref, captureAudioForSegment,
        buildStudentResponsePayload]
      rw [if_neg hib]
      refine ⟨_, _, _, _, rfl, ?_, ?_, ?_, ?_, ?_⟩
      · exact pyStr_pyOr_fallback_ne _ freshSegId hfresh
      · rfl
      · exact sent_tail_statusOf _ now _ _ _ _ rfl
          (pyStr_pyOr_fallback_ne _ freshSegId hfresh)
      · rw [sent_tail_ai]
        rfl
      · rw [sent_tail_events]
        simp [logEvent]

/-! ## Claim C9 -/

/-- Claim C9: for every non-noise student_response with no supplied
audio_ref, a failing audio-capture request is logged at warning level
(`audio_segment_capture_failed`) and swallowed: `audio_ref` stays null in
the result and in the enqueued payload, the canonical payload is still
appended to the `ai` mailbox, the segment still advances through
`stt_segment_finalized` to status `sent`, and the handler still returns
success with `dropped = False`. -/
theorem c9_capture_failure_swallowed :
    ∀ (now : Nat) (freshSegId err : String) (st : RouteState) (sender : JVal)
      (mfs ms : List (String × JVal)) (injBy : Option String) (t0 : String),
      jGetD (.obj mfs) "text" = .str t0 →
      pyStrip t0 ≠ "" →
      looksLikeNoise (pyStrip t0) = false →
      freshSegId ≠ "" →
      jGetD (.obj mfs) "meta" = .obj ms →
      jTruthy (jGetD (.obj ms) "audio_ref") = false →
      ∃ (sid rid : String) (st' : RouteState) (payload : JVal),
        handleStudentResponse now freshSegId (.failure err) st sender (.obj mfs)
            injBy =
          (st', .sentOk sid rid .null payload) ∧
        sid ≠ "" ∧
        jGetD (jGetD payload "meta") "audio_ref" = .null ∧
        statusOf st' sid = some "sent" ∧
        st'.ai = st.ai ++ [⟨sender, payload⟩] ∧
        st'.events = st.events ++
          [⟨"audio_segment_capture_failed", "warn"⟩,
           ⟨"stt_segment_finalized", "info"⟩, ⟨"enqueue", "info"⟩,
           ⟨"student_response_sent", "info"⟩] :=
  fun now freshSegId err st sender mfs ms injBy t0 h1 h2 h3 h4 h5 h6 =>
    handler_capture_failure_spec now freshSegId err st sender mfs ms injBy t0
      h1 h2 h3 h4 h5 h6

/-- Claim C9, witness: the theorem applied to the concrete non-noise text
`"What is your name?"` with a raising capture service. -/
theorem c9_witness :
    ∃ (sid rid : String) (st' : RouteState) (payload : JVal),
      handleStudentResponse 1000 "f1" (.failure "pactl failed")
          (emptyRouteState []) (.str "stt")
          (JVal.obj [("text", .str "What is your name?"),
            ("meta", .obj [("segment_id", .str "segD"), ("flow_run_id", .str "run3")])])
          none =
        (st', .sentOk sid rid .null payload) ∧
      sid ≠ "" ∧
      jGetD (jGetD payload "meta") "audio_ref" = .null ∧
      statusOf st' sid = some "sent" ∧
      st'.ai = (emptyRouteState []).ai ++ [⟨.str "stt", payload⟩] ∧
      st'.events = (emptyRouteState []).events ++
        [⟨"audio_segment_capture_failed", "warn"⟩,
         ⟨"stt_segment_finalized", "info"⟩, ⟨"enqueue", "info"⟩,
         ⟨"student_response_sent", "info"⟩] := by
  exact c9_capture_failure_swallowed 1000 "f1" "pactl failed" (emptyRouteState [])
    (.str "stt")
    [("text", .str "What is your name?"),
     ("meta", .obj [("segment_id", .str "segD"), ("flow_run_id", .str "run3")])]
    [("segment_id", .str "segD"), ("flow_run_id", .str "run3")]
    none "What is your name?" rfl (by decide) (by decide) (by decide) rfl (by decide)

theorem expand_tail_ai (st : RouteState) (m1 m2 m3 : JVal) :
    (logEvent (enqueueMsg (enqueueMsg (enqueueMsg st "ai" (.str "system") m1)
        "ai" (.str "system") m2) "ai" (.str "system") m3)
      "lesson_package_expanded" "info").ai =
      st.ai ++ [⟨.str "system", m1⟩, ⟨.str "system", m2⟩, ⟨.str "system", m3⟩] := by
  show (enqueueRole (enqueueMsg (enqueueMsg st "ai" (.str "system") m1) "ai"
      (.str "system") m2) "ai" ⟨.str "system", m3⟩).ai = _
  rw [enqueueRole_ai]
  show (enqueueRole (enqueueMsg st "ai" (.str "system") m1) "ai"
      ⟨.str "system", m2⟩).ai ++ _ = _
  rw [enqueueRole_ai]
  show ((enqueueRole st "ai" ⟨.str "system", m1⟩).ai ++ _) ++ _ = _
  rw [enqueueRole_ai]
  simp

/-! ## Claim C3 -/

/-- Claim C3: a lesson_package with blank/invalid `book_type` or missing or
blank `textbook_text` fails with `invalid_lesson_package` and enqueues
nothing; otherwise exactly three messages are appended to the `ai` mailbox,
in order `rule_prompt`, `textbook_content`, `kickoff_prompt`, where the
textbook content's text is the trimmed input text verbatim, rule and
kickoff texts come from the Rule Store oracle or the fixed generic
fallbacks, all three carry the same `package_id` and the original `meta`,
and the first two (but not the kickoff) are flagged `no_return_expected`. -/
theorem c3_lesson_package_expansion :
    (∀ (st : RouteState) (p r c k : String) (ro ko : Option String)
       (sender msg : JVal),
      safeBookKey (pyStr (pyOr (pyOr (jGetD msg "book_type")
        (jGetD msg "bookType")) (.str ""))) = "" →
      expandLessonPackageToAi st p r c k ro ko sender msg =
        (st, .failed "invalid_lesson_package")) ∧
    (∀ (st : RouteState) (p r c k : String) (ro ko : Option String)
       (sender msg : JVal) (s : String),
      pyOr (jGetD msg "textbook_text") (.str "") = .str s →
      pyStrip s = "" →
      expandLessonPackageToAi st p r c k ro ko sender msg =
        (st, .failed "invalid_lesson_package")) ∧
    (∀ (st : RouteState) (p r c k : String) (ro ko : Option String)
       (sender msg : JVal) (s b : String),
      safeBookKey (pyStr (pyOr (pyOr (jGetD msg "book_type")
        (jGetD msg "bookType")) (.str ""))) = b →
      b ≠ "" →
      pyOr (jGetD msg "textbook_text") (.str "") = .str s →
      pyStrip s ≠ "" →
      ∃ (st' : RouteState) (pid : JVal) (e1 e2 e3 : Envelope),
        expandLessonPackageToAi st p r c k ro ko sender msg =
          (st', .expanded pid) ∧
        pid = pyOr (jGetD msg "id") (.str p) ∧
        st'.ai = st.ai ++ [e1, e2, e3] ∧
        st'.teacher = st.teacher ∧ st'.classQ = st.classQ ∧
        st'.stt = st.stt ∧ st'.segments = st.segments ∧
        e1.sender = .str "system" ∧ e2.sender = .str "system" ∧
        e3.sender = .str "system" ∧
        jGetD e1.message "kind" = .str "rule_prompt" ∧
        jGetD e2.message "kind" = .str "textbook_content" ∧
        jGetD e3.message "kind" = .str "kickoff_prompt" ∧
        jGetD e2.message "text" = .str (pyStrip s) ∧
        jGetD e1.message "text" =
          .str (match ro with | some t => t | none => ruleFallbackText b) ∧
        jGetD e3.message "text" =
          .str (match ko with | some t => t | none => kickoffFallbackText) ∧
        jGetD e1.message "package_id" = pid ∧
        jGetD e2.message "package_id" = pid ∧
        jGetD e3.message "package_id" = pid ∧
        jGetD e1.message "meta" = pyOr (jGetD msg "meta") (.obj []) ∧
        jGetD e2.message "meta" = pyOr (jGetD msg "meta") (.obj []) ∧
        jGetD e3.message "meta" = pyOr (jGetD msg "meta") (.obj []) ∧
        jGetD (jGetD e1.message "flags") "no_return_expected" = .bool true ∧
        jGetD (jGetD e2.message "flags") "no_return_expected" = .bool true ∧
        jGetD (jGetD e3.message "flags") "no_return_expected" = .null) := by
  refine ⟨?_, ?_, ?_⟩
  · intro st p r c k ro ko sender msg hbt
    simp only [expandLessonPackageToAi]
    cases htv : pyOr (jGetD msg "textbook_text") (.str "") with
    | str s =>
      show (if safeBookKey (pyStr (pyOr (pyOr (jGetD msg "book_type")
          (jGetD msg "bookType")) (.str ""))) = "" ∨ pyStrip s = ""
        then ((st, ExpandResult.failed "invalid_lesson_package") :
          RouteState × ExpandResult) else _) = _
      exact if_pos (Or.inl hbt)
    | null => rfl
    | bool b => rfl
    | num n => rfl
    | arr xs => rfl
    | obj fs => rfl
  · intro st p r c k ro ko sender msg s htv hstrip
    simp only [expandLessonPackageToAi, htv]
    show (if safeBookKey (pyStr (pyOr (pyOr (jGetD msg "book_type")
        (jGetD msg "bookType")) (.str ""))) = "" ∨ pyStrip s = ""
      then ((st, ExpandResult.failed "invalid_lesson_package") :
        RouteState × ExpandResult) else _) = _
    exact if_pos (Or.inr hstrip)
  · intro st p r c k ro ko sender msg s b hbval hbne htv hstrip
    have hexp : expandLessonPackageToAi st p r c k ro ko sender msg =
        (logEvent (enqueueMsg (enqueueMsg (enqueueMsg st "ai" (.str "system")
            (JVal.obj
              [("id", .str r), ("sender", .str "system"), ("receiver", .str "ai"),
               ("kind", .str "rule_prompt"), ("book_type", .str b),
               ("package_id", pyOr (jGetD msg "id") (.str p)),
               ("text", .str (match ro with | some t => t | none => ruleFallbackText b)),
               ("delay_after_ms", .num 1000),
               ("flags", .obj [("special", .bool true), ("no_return_expected", .bool true)]),
               ("meta", pyOr (jGetD msg "meta") (.obj []))]))
          "ai" (.str "system")
            (JVal.obj
              [("id", .str c), ("sender", .str "system"), ("receiver", .str "ai"),
               ("kind", .str "textbook_content"), ("book_type", .str b),
               ("package_id", pyOr (jGetD msg "id") (.str p)),
               ("text", .str (pyStrip s)),
               ("flags", .obj [("special", .bool true), ("no_return_expected", .bool true)]),
               ("meta", pyOr (jGetD msg "meta") (.obj []))]))
          "ai" (.str "system")
            (JVal.obj
              [("id", .str k), ("sender", .str "system"), ("receiver", .str "ai"),
               ("kind", .str "kickoff_prompt"), ("book_type", .str b),
               ("package_id", pyOr (jGetD msg "id") (.str p)),
               ("text", .str (match ko with | some t => t | none => kickoffFallbackText)),
               ("flags", .obj [("special", .bool true)]),
               ("meta", pyOr (jGetD msg "meta") (.obj []))]))
          "lesson_package_expanded" "info",
         .expanded (pyOr (jGetD msg "id") (.str p))) := by
      simp only [expandLessonPackageToAi, htv, hbval]
      rw [if_neg (not_or.mpr ⟨hbne, hstrip⟩)]
    exact ⟨_, _, _, _, _, hexp, rfl, expand_tail_ai st _ _ _, rfl, rfl, rfl,
      rfl, rfl, rfl, rfl, rfl, rfl, rfl, rfl, rfl, rfl, rfl, rfl, rfl, rfl,
      rfl, rfl, rfl, rfl, rfl⟩

/-- Claim C3, witness: the theorem applied to a concrete lesson package
(book type `Eng_1`, padded textbook text, an explicit package id, no Rule
Store rule text and a Rule Store kickoff text), and the failure case
applied to a package with a blank book type. -/
theorem c3_witness :
    (∃ (st' : RouteState) (pid : JVal) (e1 e2 e3 : Envelope),
      expandLessonPackageToAi (emptyRouteState []) "pkgF" "ruleF" "contentF"
          "kickF" none (some "Ask a warm-up question.") (.str "teacher")
          (JVal.obj [("book_type", .str "Eng_1"),
            ("textbook_text", .str "  Unit 1: Hello.  "),
            ("meta", .obj [("flow_run_id", .str "run5")]),
            ("id", .str "pkg-9")]) =
        (st', .expanded pid) ∧
      pid = pyOr (jGetD (JVal.obj [("book_type", .str "Eng_1"),
        ("textbook_text", .str "  Unit 1: Hello.  "),
        ("meta", .obj [("flow_run_id", .str "run5")]),
        ("id", .str "pkg-9")]) "id") (.str "pkgF") ∧
      st'.ai = (emptyRouteState []).ai ++ [e1, e2, e3] ∧
      st'.teacher = (emptyRouteState []).teacher ∧
      st'.classQ = (emptyRouteState []).classQ ∧
      st'.stt = (emptyRouteState []).stt ∧
      st'.segments = (emptyRouteState []).segments ∧
      e1.sender = .str "system" ∧ e2.sender = .str "system" ∧
      e3.sender = .str "system" ∧
      jGetD e1.message "kind" = .str "rule_prompt" ∧
      jGetD e2.message "kind" = .str "textbook_content" ∧
      jGetD e3.message "kind" = .str "kickoff_prompt" ∧
      jGetD e2.message "text" = .str (pyStrip "  Unit 1: Hello.  ") ∧
      jGetD e1.message "text" =
        .str (match (none : Option String) with
              | some t => t | none => ruleFallbackText "eng_1") ∧
      jGetD e3.message "text" =
        .str (match (some "Ask a warm-up question." : Option String) with
              | some t => t | none => kickoffFallbackText) ∧
      jGetD e1.message "package_id" = pid ∧
      jGetD e2.message "package_id" = pid ∧
      jGetD e3.message "package_id" = pid ∧
      jGetD e1.message "meta" = pyOr (jGetD (JVal.obj [("book_type", .str "Eng_1"),
        ("textbook_text", .str "  Unit 1: Hello.  "),
        ("meta", .obj [("flow_run_id", .str "run5")]),
        ("id", .str "pkg-9")]) "meta") (.obj []) ∧
      jGetD e2.message "meta" = pyOr (jGetD (JVal.obj [("book_type", .str "Eng_1"),
        ("textbook_text", .str "  Unit 1: Hello.  "),
        ("meta", .obj [("flow_run_id", .str "run5")]),
        ("id", .str "pkg-9")]) "meta") (.obj []) ∧
      jGetD e3.message "meta" = pyOr (jGetD (JVal.obj [("book_type", .str "Eng_1"),
        ("textbook_text", .str "  Unit 1: Hello.  "),
        ("meta", .obj [("flow_run_id", .str "run5")]),
        ("id", .str "pkg-9")]) "meta") (.obj []) ∧
      jGetD (jGetD e1.message "flags") "no_return_expected" = .bool true ∧
      jGetD (jGetD e2.message "flags") "no_return_expected" = .bool true ∧
      jGetD (jGetD e3.message "flags") "no_return_expected" = .null) ∧
    expandLessonPackageToAi (emptyRouteState []) "pkgF" "ruleF" "contentF"
        "kickF" none none (.str "teacher")
        (JVal.obj [("book_type", .str "  "),
          ("textbook_text", .str "Unit 1")]) =
      (emptyRouteState [], .failed "invalid_lesson_package") := by
  constructor
  · exact c3_lesson_package_expansion.2.2 (emptyRouteState []) "pkgF" "ruleF"
      "contentF" "kickF" none (some "Ask a warm-up question.") (.str "teacher")
      (JVal.obj [("book_type", .str "Eng_1"),
        ("textbook_text", .str "  Unit 1: Hello.  "),
        ("meta", .obj [("flow_run_id", .str "run5")]),
        ("id", .str "pkg-9")])
      "  Unit 1: Hello.  " "eng_1" rfl (by decide) rfl (by decide)
  · exact c3_lesson_package_expansion.1 (emptyRouteState []) "pkgF" "ruleF"
      "contentF" "kickF" none none (.str "teacher")
      (JVal.obj [("book_type", .str "  "), ("textbook_text", .str "Unit 1")])
      (by decide)

/-! ## Claim C10 -/

/-- Claim C10: a `POST /send_message` whose `to` is a known role other than
`ai` (`teacher`, `class` or `stt`) appends the message verbatim to that
role's mailbox and returns ok, regardless of the message's kind: the
Response Handler and the Rule Expansion Unit are bypassed — no validation,
no noise classification, no pipeline segment creation or update, no
package expansion, and no run-id consumption happen. -/
theorem c10_non_ai_bypass :
    ∀ (now : Nat) (f1 f2 f3 f4 f5 : String) (capture : CaptureOutcome)
      (ro ko : Option String) (st : RouteState) (sender message : JVal)
      (r : String),
      (r = "teacher" ∨ r = "class" ∨ r = "stt") →
      jTruthy sender = true →
      jIsNull message = false →
      ∃ st' : RouteState,
        enqueueMessage now f1 f2 f3 f4 f5 capture ro ko st
            (.obj [("from", sender), ("to", .str r), ("message", message)]) =
          (st', .okPlain) ∧
        st'.ai = st.ai ∧
        st'.segments = st.segments ∧
        st'.lastIds = st.lastIds ∧
        st'.runIds = st.runIds ∧
        st'.events = st.events ++ [⟨"send_message", "info"⟩, ⟨"enqueue", "info"⟩] ∧
        (if r = "teacher" then st'.teacher = st.teacher ++ [⟨sender, message⟩]
         else st'.teacher = st.teacher) ∧
        (if r = "class" then st'.classQ = st.classQ ++ [⟨sender, message⟩]
         else st'.classQ = st.classQ) ∧
        (if r = "stt" then st'.stt = st.stt ++ [⟨sender, message⟩]
         else st'.stt = st.stt) := by
  intro now f1 f2 f3 f4 f5 capture ro ko st sender message r hr hsender hmsg
  rcases hr with rfl | rfl | rfl
  · have hval : ¬ (jTruthy sender = false ∨
        jTruthy (JVal.str "teacher") = false ∨ jIsNull message = true) := by
      intro h
      rcases h with h | h | h
      · rw [hsender] at h; exact Bool.noConfusion h
      · exact absurd h (by decide)
      · rw [hmsg] at h; exact Bool.noConfusion h
    have heq : enqueueMessage now f1 f2 f3 f4 f5 capture ro ko st
        (.obj [("from", sender), ("to", .str "teacher"), ("message", message)]) =
        (logEvent (enqueueRole (logEvent st "send_message" "info") "teacher"
          ⟨sender, message⟩) "enqueue" "info", .okPlain) := by
      show (if jTruthy sender = false ∨ jTruthy (JVal.str "teacher") = false ∨
          jIsNull message = true then _ else _) = _
      rw [if_neg hval]
      rfl
    refine ⟨_, heq, rfl, rfl, rfl, rfl, ?_, ?_, ?_, ?_⟩
    · show ((enqueueRole (logEvent st "send_message" "info") "teacher"
        ⟨sender, message⟩).events) ++ [⟨"enqueue", "info"⟩] = _
      rw [(enqueueRole_preserves_rest _ _ _).2.1]
      show (st.events ++ [⟨"send_message", "info"⟩]) ++ [⟨"enqueue", "info"⟩] = _
      simp
    · rw [if_pos rfl]
      rfl
    · rw [if_neg (by decide)]
      rfl
    · rw [if_neg (by decide)]
      rfl
  · have hval : ¬ (jTruthy sender = false ∨
        jTruthy (JVal.str "class") = false ∨ jIsNull message = true) := by
      intro h
      rcases h with h | h | h
      · rw [hsender] at h; exact Bool.noConfusion h
      · exact absurd h (by decide)
      · rw [hmsg] at h; exact Bool.noConfusion h
    have heq : enqueueMessage now f1 f2 f3 f4 f5 capture ro ko st
        (.obj [("from", sender), ("to", .str "class"), ("message", message)]) =
        (logEvent (enqueueRole (logEvent st "send_message" "info") "class"
          ⟨sender, message⟩) "enqueue" "info", .okPlain) := by
      show (if jTruthy sender = false ∨ jTruthy (JVal.str "class") = false ∨
          jIsNull message = true then _ else _) = _
      rw [if_neg hval]
      rfl
    refine ⟨_, heq, rfl, rfl, rfl, rfl, ?_, ?_, ?_, ?_⟩
    · show ((enqueueRole (logEvent st "send_message" "info") "class"
        ⟨sender, message⟩).events) ++ [⟨"enqueue", "info"⟩] = _
      rw [(enqueueRole_preserves_rest _ _ _).2.1]
      show (st.events ++ [⟨"send_message", "info"⟩]) ++ [⟨"enqueue", "info"⟩] = _
      simp
    · rw [if_neg (by decide)]
      rfl
    · rw [if_pos rfl]
      rfl
    · rw [if_neg (by decide)]
      rfl
  · have hval : ¬ (jTruthy sender = false ∨
        jTruthy (JVal.str "stt") = false ∨ jIsNull message = true) := by
      intro h
      rcases h with h | h | h
      · rw [hsender] at h; exact Bool.noConfusion h
      · exact absurd h (by decide)
      · rw [hmsg] at h; exact Bool.noConfusion h
    have heq : enqueueMessage now f1 f2 f3 f4 f5 capture ro ko st
        (.obj [("from", sender), ("to", .str "stt"), ("message", message)]) =
        (logEvent (enqueueRole (logEvent st "send_message" "info") "stt"
          ⟨sender, message⟩) "enqueue" "info", .okPlain) := by
      show (if jTruthy sender = false ∨ jTruthy (JVal.str "stt") = false ∨
          jIsNull message = true then _ else _) = _
      rw [if_neg hval]
      rfl
    refine ⟨_, heq, rfl, rfl, rfl, rfl, ?_, ?_, ?_, ?_⟩
    · show ((enqueueRole (logEvent st "send_message" "info") "stt"
        ⟨sender, message⟩).events) ++ [⟨"enqueue", "info"⟩] = _
      rw [(enqueueRole_preserves_rest _ _ _).2.1]
      show (st.events ++ [⟨"send_message", "info"⟩]) ++ [⟨"enqueue", "info"⟩] = _
      simp
    · rw [if_neg (by decide)]
      rfl
    · rw [if_neg (by decide)]
      rfl
    · rw [if_pos rfl]
      rfl

/-- Claim C10, witness: a `student_response`-kind message addressed to
`teacher` is appended verbatim and no segment is created. -/
theorem c10_witness :
    ∃ st' : RouteState,
      enqueueMessage 1000 "f1" "f2" "f3" "f4" "f5" .noBridge none none
          (emptyRouteState [])
          (.obj [("from", .str "stt"), ("to", .str "teacher"),
            ("message", .obj [("kind", .str "student_response")])]) =
        (st', .okPlain) ∧
      st'.ai = (emptyRouteState []).ai ∧
      st'.segments = (emptyRouteState []).segments ∧
      st'.lastIds = (emptyRouteState []).lastIds ∧
      st'.runIds = (emptyRouteState []).runIds ∧
      st'.events = (emptyRouteState []).events ++
        [⟨"send_message", "info"⟩, ⟨"enqueue", "info"⟩] ∧
      (if "teacher" = "teacher" then st'.teacher = (emptyRouteState []).teacher ++
        [⟨.str "stt", .obj [("kind", .str "student_response")]⟩]
       else st'.teacher = (emptyRouteState []).teacher) ∧
      (if "teacher" = "class" then st'.classQ = (emptyRouteState []).classQ ++
        [⟨.str "stt", .obj [("kind", .str "student_response")]⟩]
       else st'.classQ = (emptyRouteState []).classQ) ∧
      (if "teacher" = "stt" then st'.stt = (emptyRouteState []).stt ++
        [⟨.str "stt", .obj [("kind", .str "student_response")]⟩]
       else st'.stt = (emptyRouteState []).stt) := by
  exact c10_non_ai_bypass 1000 "f1" "f2" "f3" "f4" "f5" .noBridge none none
    (emptyRouteState []) (.str "stt") (.obj [("kind", .str "student_response")])
    "teacher" (Or.inl rfl) (by decide) (by decide)

/-- Claim C4: `walkie_signal_push` rejects a normalized target role outside
receiver/transmitter (400 invalid_to_role), rejects a normalized signal
type outside offer/answer/ptt_state/heartbeat (400 invalid_signal_type),
propagates authentication errors computed on the pruned state (404 for
session_not_found, 401 otherwise), rejects a push whose authenticated role
equals the target role (400 cannot_signal_same_role, so a receiver pushing
`to=receiver` always fails), and otherwise answers ok after storing the
session with the signal appended to the target role's queue — which is
trimmed to a suffix of at most 300 signals, dropping the oldest — and the
sender role's `last_seen` set to now. -/
theorem c4_push_protocol :
    (∀ (now : Nat) (st : WalkieState) (body : JVal) (toR : String),
      pyLowerStr (pyStrip (pyStr (pyOr (jGetD body "to") (.str "")))) = toR →
      toR ≠ "receiver" → toR ≠ "transmitter" →
      walkieSignalPush now st body =
        (walkieLogEvent st "walkie_signal_rejected" "warn",
         .apiErr 400 "invalid_to_role")) ∧
    (∀ (now : Nat) (st : WalkieState) (body : JVal) (toR tyS : String),
      pyLowerStr (pyStrip (pyStr (pyOr (jGetD body "to") (.str "")))) = toR →
      (toR = "receiver" ∨ toR = "transmitter") →
      pyLowerStr (pyStrip (pyStr (pyOr (jGetD body "type") (.str "")))) = tyS →
      tyS ≠ "offer" → tyS ≠ "answer" → tyS ≠ "ptt_state" → tyS ≠ "heartbeat" →
      walkieSignalPush now st body =
        (walkieLogEvent st "walkie_signal_rejected" "warn",
         .apiErr 400 "invalid_signal_type")) ∧
    (∀ (now : Nat) (st : WalkieState) (body : JVal) (toR tyS e : String),
      pyLowerStr (pyStrip (pyStr (pyOr (jGetD body "to") (.str "")))) = toR →
      (toR = "receiver" ∨ toR = "transmitter") →
      pyLowerStr (pyStrip (pyStr (pyOr (jGetD body "type") (.str "")))) = tyS →
      (tyS = "offer" ∨ tyS = "answer" ∨ tyS = "ptt_state" ∨
        tyS = "heartbeat") →
      walkieAuth now (walkiePrune now st) (jGetD body "session_id")
          (jGetD body "token") = .authErr e →
      walkieSignalPush now st body =
        (walkieLogEvent (walkiePrune now st) "walkie_signal_rejected" "warn",
         .apiErr (if e = "session_not_found" then 404 else 401) e)) ∧
    (∀ (now : Nat) (st : WalkieState) (body : JVal) (toR tyS sid : String)
       (sess : WalkieSession),
      pyLowerStr (pyStrip (pyStr (pyOr (jGetD body "to") (.str "")))) = toR →
      (toR = "receiver" ∨ toR = "transmitter") →
      pyLowerStr (pyStrip (pyStr (pyOr (jGetD body "type") (.str "")))) = tyS →
      (tyS = "offer" ∨ tyS = "answer" ∨ tyS = "ptt_state" ∨
        tyS = "heartbeat") →
      walkieAuth now (walkiePrune now st) (jGetD body "session_id")
          (jGetD body "token") = .authOk sid sess toR →
      walkieSignalPush now st body =
        (walkieLogEvent (walkiePrune now st) "walkie_signal_rejected" "warn",
         .apiErr 400 "cannot_signal_same_role")) ∧
    (∀ (now : Nat) (st : WalkieState) (body : JVal) (toR tyS sid role : String)
       (sess : WalkieSession),
      pyLowerStr (pyStrip (pyStr (pyOr (jGetD body "to") (.str "")))) = toR →
      (toR = "receiver" ∨ toR = "transmitter") →
      pyLowerStr (pyStrip (pyStr (pyOr (jGetD body "type") (.str "")))) = tyS →
      (tyS = "offer" ∨ tyS = "answer" ∨ tyS = "ptt_state" ∨
        tyS = "heartbeat") →
      walkieAuth now (walkiePrune now st) (jGetD body "session_id")
          (jGetD body "token") = .authOk sid sess role →
      role ≠ toR →
      (walkieSignalPush now st body).2 = .ok ∧
      (walkieSignalPush now st body).1.sessions =
        alist_set (walkiePrune now st).sessions sid
          (setLastSeen
            (queueSignal sess toR ⟨tyS, role, toR, jGetD body "payload", now⟩)
            role now)) ∧
    (∀ (sess : WalkieSession) (s : WalkieSignal),
      (queueSignal sess "receiver" s).sigReceiver =
        trimQueue (sess.sigReceiver ++ [s]) ∧
      (queueSignal sess "transmitter" s).sigTransmitter =
        trimQueue (sess.sigTransmitter ++ [s])) ∧
    (∀ q : List WalkieSignal,
      trimQueue q = q.drop (q.length - 300) ∧ (trimQueue q).length ≤ 300) ∧
    (∀ (sess : WalkieSession) (ts : Nat),
      (setLastSeen sess "receiver" ts).lastSeenReceiver = some ts ∧
      (setLastSeen sess "transmitter" ts).lastSeenTransmitter = some ts) := by
  refine ⟨?_, ?_, ?_, ?_, ?_, ?_, ?_, ?_⟩
  · intro now st body toR hto h1 h2
    subst hto
    simp only [walkieSignalPush]
    rw [if_pos ⟨h1, h2⟩]
  · intro now st body toR tyS hto htoOk hty h1 h2 h3 h4
    subst hto
    subst hty
    have hnotR : ¬(pyLowerStr (pyStrip (pyStr (pyOr (jGetD body "to")
        (JVal.str "")))) ≠ "receiver" ∧
        pyLowerStr (pyStrip (pyStr (pyOr (jGetD body "to")
        (JVal.str "")))) ≠ "transmitter") := by
      rcases htoOk with h | h
      · exact fun hc => hc.1 h
      · exact fun hc => hc.2 h
    simp only [walkieSignalPush]
    rw [if_neg hnotR, if_pos ⟨h1, h2, h3, h4⟩]
  · intro now st body toR tyS e hto htoOk hty htyOk hauth
    subst hto
    subst hty
    have hnotR : ¬(pyLowerStr (pyStrip (pyStr (pyOr (jGetD body "to")
        (JVal.str "")))) ≠ "receiver" ∧
        pyLowerStr (pyStrip (pyStr (pyOr (jGetD body "to")
        (JVal.str "")))) ≠ "transmitter") := by
      rcases htoOk with h | h
      · exact fun hc => hc.1 h
      · exact fun hc => hc.2 h
    have hnotT : ¬(pyLowerStr (pyStrip (pyStr (pyOr (jGetD body "type")
        (JVal.str "")))) ≠ "offer" ∧
        pyLowerStr (pyStrip (pyStr (pyOr (jGetD body "type")
        (JVal.str "")))) ≠ "answer" ∧
        pyLowerStr (pyStrip (pyStr (pyOr (jGetD body "type")
        (JVal.str "")))) ≠ "ptt_state" ∧
        pyLowerStr (pyStrip (pyStr (pyOr (jGetD body "type")
        (JVal.str "")))) ≠ "heartbeat") := by
      rcases htyOk with h | h | h | h
      · exact fun hc => hc.1 h
      · exact fun hc => hc.2.1 h
      · exact fun hc => hc.2.2.1 h
      · exact fun hc => hc.2.2.2 h
    simp only [walkieSignalPush]
    rw [if_neg hnotR, if_neg hnotT, hauth]
  · intro now st body toR tyS sid sess hto htoOk hty htyOk hauth
    subst hto
    subst hty
    have hnotR : ¬(pyLowerStr (pyStrip (pyStr (pyOr (jGetD body "to")
        (JVal.str "")))) ≠ "receiver" ∧
        pyLowerStr (pyStrip (pyStr (pyOr (jGetD body "to")
        (JVal.str "")))) ≠ "transmitter") := by
      rcases htoOk with h | h
      · exact fun hc => hc.1 h
      · exact fun hc => hc.2 h
    have hnotT : ¬(pyLowerStr (pyStrip (pyStr (pyOr (jGetD body "type")
        (JVal.str "")))) ≠ "offer" ∧
        pyLowerStr (pyStrip (pyStr (pyOr (jGetD body "type")
        (JVal.str "")))) ≠ "answer" ∧
        pyLowerStr (pyStrip (pyStr (pyOr (jGetD body "type")
        (JVal.str "")))) ≠ "ptt_state" ∧
        pyLowerStr (pyStrip (pyStr (pyOr (jGetD body "type")
        (JVal.str "")))) ≠ "heartbeat") := by
      rcases htyOk with h | h | h | h
      · exact fun hc => hc.1 h
      · exact fun hc => hc.2.1 h
      · exact fun hc => hc.2.2.1 h
      · exact fun hc => hc.2.2.2 h
    simp only [walkieSignalPush]
    rw [if_neg hnotR, if_neg hnotT, hauth]
    show (if pyLowerStr (pyStrip (pyStr (pyOr (jGetD body "to")
        (JVal.str "")))) = pyLowerStr (pyStrip (pyStr (pyOr (jGetD body "to")
        (JVal.str "")))) then _ else _) = _
    rw [if_pos rfl]
  · intro now st body toR tyS sid role sess hto htoOk hty htyOk hauth hne
    subst hto
    subst hty
    have hnotR : ¬(pyLowerStr (pyStrip (pyStr (pyOr (jGetD body "to")
        (JVal.str "")))) ≠ "receiver" ∧
        pyLowerStr (pyStrip (pyStr (pyOr (jGetD body "to")
        (JVal.str "")))) ≠ "transmitter") := by
      rcases htoOk with h | h
      · exact fun hc => hc.1 h
      · exact fun hc => hc.2 h
    have hnotT : ¬(pyLowerStr (pyStrip (pyStr (pyOr (jGetD body "type")
        (JVal.str "")))) ≠ "offer" ∧
        pyLowerStr (pyStrip (pyStr (pyOr (jGetD body "type")
        (JVal.str "")))) ≠ "answer" ∧
        pyLowerStr (pyStrip (pyStr (pyOr (jGetD body "type")
        (JVal.str "")))) ≠ "ptt_state" ∧
        pyLowerStr (pyStrip (pyStr (pyOr (jGetD body "type")
        (JVal.str "")))) ≠ "heartbeat") := by
      rcases htyOk with h | h | h | h
      · exact fun hc => hc.1 h
      · exact fun hc => hc.2.1 h
      · exact fun hc => hc.2.2.1 h
      · exact fun hc => hc.2.2.2 h
    rcases hev : walkieEventForType (pyLowerStr (pyStrip (pyStr
        (pyOr (jGetD body "type") (JVal.str ""))))) with _ | ev
    · have hpush : walkieSignalPush now st body =
          ({ walkiePrune now st with
              sessions := alist_set (walkiePrune now st).sessions sid
                (setLastSeen
                  (queueSignal sess
                    (pyLowerStr (pyStrip (pyStr (pyOr (jGetD body "to")
                      (JVal.str "")))))
                    ⟨pyLowerStr (pyStrip (pyStr (pyOr (jGetD body "type")
                        (JVal.str "")))), role,
                      pyLowerStr (pyStrip (pyStr (pyOr (jGetD body "to")
                        (JVal.str "")))),
                      jGetD body "payload", now⟩)
                  role now) },
           WalkieApiResult.ok) := by
        simp only [walkieSignalPush]
        rw [if_neg hnotR, if_neg hnotT, hauth]
        show (if role = pyLowerStr (pyStrip (pyStr (pyOr (jGetD body "to")
            (JVal.str "")))) then _ else _) = _
        rw [if_neg hne, hev]
      exact ⟨by rw [hpush], by rw [hpush]⟩
    · have hpush : walkieSignalPush now st body =
          (walkieLogEvent
            { walkiePrune now st with
              sessions := alist_set (walkiePrune now st).sessions sid
                (setLastSeen
                  (queueSignal sess
                    (pyLowerStr (pyStrip (pyStr (pyOr (jGetD body "to")
                      (JVal.str "")))))
                    ⟨pyLowerStr (pyStrip (pyStr (pyOr (jGetD body "type")
                        (JVal.str "")))), role,
                      pyLowerStr (pyStrip (pyStr (pyOr (jGetD body "to")
                        (JVal.str "")))),
                      jGetD body "payload", now⟩)
                  role now) } ev "info",
           WalkieApiResult.ok) := by
        simp only [walkieSignalPush]
        rw [if_neg hnotR, if_neg hnotT, hauth]
        show (if role = pyLowerStr (pyStrip (pyStr (pyOr (jGetD body "to")
            (JVal.str "")))) then _ else _) = _
        rw [if_neg hne, hev]
      exact ⟨by rw [hpush], by rw [hpush]; rfl⟩
  · intro sess s
    constructor
    · simp [queueSignal]
    · simp [queueSignal]
  · intro q
    by_cases h : q.length > 300
    · constructor
      · simp [trimQueue, h]
      · simp [trimQueue, h]
        omega
    · have h0 : q.length - 300 = 0 := by omega
      constructor
      · simp [trimQueue, h, h0]
      · simp [trimQueue, h]
        omega
  · intro sess ts
    constructor
    · simp [setLastSeen]
    · simp [setLastSeen]

/-- Claim C4, witness: against the live session fixture, pushing to role
`NOWHERE ` is rejected with invalid_to_role; the receiver pushing
`to=receiver` is rejected with cannot_signal_same_role; and the receiver
pushing an offer `to=transmitter` returns ok and stores the session with
the signal queued for the transmitter and the receiver's last_seen set. -/
theorem c4_witness :
    (walkieSignalPush 500 wStLive (JVal.obj [("to", .str "NOWHERE ")]) =
      (walkieLogEvent wStLive "walkie_signal_rejected" "warn",
       .apiErr 400 "invalid_to_role")) ∧
    (walkieSignalPush 500 wStLive
        (JVal.obj [("session_id", .str "s1"), ("token", .str "rtok"),
          ("to", .str "receiver"), ("type", .str "offer")]) =
      (walkieLogEvent (walkiePrune 500 wStLive) "walkie_signal_rejected"
        "warn",
       .apiErr 400 "cannot_signal_same_role")) ∧
    ((walkieSignalPush 500 wStLive
        (JVal.obj [("session_id", .str "s1"), ("token", .str "rtok"),
          ("to", .str "transmitter"), ("type", .str "offer"),
          ("payload", .str "sdp")])).2 = .ok ∧
      (walkieSignalPush 500 wStLive
        (JVal.obj [("session_id", .str "s1"), ("token", .str "rtok"),
          ("to", .str "transmitter"), ("type", .str "offer"),
          ("payload", .str "sdp")])).1.sessions =
        alist_set (walkiePrune 500 wStLive).sessions "s1"
          (setLastSeen
            (queueSignal wSessLive "transmitter"
              ⟨"offer", "receiver", "transmitter",
                jGetD (JVal.obj [("session_id", .str "s1"),
                  ("token", .str "rtok"), ("to", .str "transmitter"),
                  ("type", .str "offer"), ("payload", .str "sdp")]) "payload",
                500⟩)
            "receiver" 500)) := by
  refine ⟨?_, ?_, ?_⟩
  · exact c4_push_protocol.1 500 wStLive (JVal.obj [("to", .str "NOWHERE ")])
      "nowhere" rfl (by decide) (by decide)
  · exact c4_push_protocol.2.2.2.1 500 wStLive
      (JVal.obj [("session_id", .str "s1"), ("token", .str "rtok"),
        ("to", .str "receiver"), ("type", .str "offer")])
      "receiver" "offer" "s1" wSessLive rfl (Or.inl rfl) rfl (Or.inl rfl) rfl
  · exact c4_push_protocol.2.2.2.2.1 500 wStLive
      (JVal.obj [("session_id", .str "s1"), ("token", .str "rtok"),
        ("to", .str "transmitter"), ("type", .str "offer"),
        ("payload", .str "sdp")])
      "transmitter" "offer" "s1" "receiver" wSessLive rfl (Or.inr rfl) rfl
      (Or.inl rfl) rfl (by decide)

theorem alist_get_mem {α : Type} (l : List (String × α)) (k : String) (v : α)
    (h : alist_get l k = some v) : (k, v) ∈ l := by
  induction l with
  | nil => simp [alist_get] at h
  | cons p rest ih =>
    obtain ⟨a, b⟩ := p
    by_cases hp : a = k
    · simp [alist_get, hp] at h
      subst hp
      subst h
      exact List.mem_cons_self _ _
    · simp only [alist_get, hp, if_false] at h
      exact List.mem_cons_of_mem _ (ih h)

theorem alist_get_of_mem_nodup {α : Type} (l : List (String × α)) (k : String)
    (v : α) (hnd : (l.map Prod.fst).Nodup) (hmem : (k, v) ∈ l) :
    alist_get l k = some v := by
  induction l with
  | nil => simp at hmem
  | cons p rest ih =>
    obtain ⟨a, b⟩ := p
    simp only [List.map_cons, List.nodup_cons] at hnd
    rcases List.mem_cons.mp hmem with h | h
    · injection h with h1 h2
      subst h1
      subst h2
      simp [alist_get]
    · have hne : ¬ a = k := by
        intro he
        apply hnd.1
        rw [he]
        exact List.mem_map_of_mem Prod.fst h
      show (if a = k then some b else alist_get rest k) = some v
      rw [if_neg hne]
      exact ih hnd.2 h

theorem alist_get_filter_of_none {α : Type} (l : List (String × α))
    (p : String × α → Bool) (k : String) (h : alist_get l k = none) :
    alist_get (l.filter p) k = none := by
  induction l with
  | nil => simp [alist_get]
  | cons q rest ih =>
    by_cases hq : q.1 = k
    · simp [alist_get, hq] at h
    · have h2 : alist_get rest k = none := by
        simpa [alist_get, hq] using h
      by_cases hp : p q = true
      · rw [List.filter_cons_of_pos hp]
        simpa [alist_get, hq] using ih h2
      · rw [List.filter_cons_of_neg (by simpa using hp)]
        exact ih h2

theorem walkiePruneOne_sessions_none (st : WalkieState) (j k : String)
    (h : alist_get st.sessions k = none) :
    alist_get (walkiePruneOne st j).sessions k = none := by
  rcases hj : alist_get st.sessions j with _ | sess
  · simp only [walkiePruneOne, hj]
    exact h
  · simp only [walkiePruneOne, hj]
    exact alist_get_filter_of_none _ _ _ h

theorem walkiePruneOne_byPair_none (st : WalkieState) (j c : String)
    (h : alist_get st.byPairCode c = none) :
    alist_get (walkiePruneOne st j).byPairCode c = none := by
  rcases hj : alist_get st.sessions j with _ | sess
  · simp only [walkiePruneOne, hj]
    exact h
  · simp only [walkiePruneOne, hj]
    by_cases hc : sess.pair_code ≠ "" ∧
        alist_get st.byPairCode sess.pair_code = some j
    · rw [if_pos hc]
      exact alist_get_filter_of_none _ _ _ h
    · rw [if_neg hc]
      exact h

theorem walkiePruneOne_sessions_self (st : WalkieState) (j : String) :
    alist_get (walkiePruneOne st j).sessions j = none := by
  rcases hj : alist_get st.sessions j with _ | sess
  · simp only [walkiePruneOne, hj]
  · simp only [walkiePruneOne, hj]
    exact alist_get_filter_self _ _

theorem walkiePruneOne_sessions_ne (st : WalkieState) (j k : String)
    (hne : k ≠ j) :
    alist_get (walkiePruneOne st j).sessions k = alist_get st.sessions k := by
  rcases hj : alist_get st.sessions j with _ | sess
  · simp only [walkiePruneOne, hj]
  · simp only [walkiePruneOne, hj]
    exact alist_get_filter_ne _ _ _ hne

theorem walkiePruneOne_byPair_keep (st : WalkieState) (j c sid : String)
    (h : alist_get st.byPairCode c = some sid) (hne : j ≠ sid) :
    alist_get (walkiePruneOne st j).byPairCode c = some sid := by
  rcases hj : alist_get st.sessions j with _ | sess
  · simp only [walkiePruneOne, hj]
    exact h
  · simp only [walkiePruneOne, hj]
    by_cases hc : sess.pair_code ≠ "" ∧
        alist_get st.byPairCode sess.pair_code = some j
    · rw [if_pos hc]
      have hcc : c ≠ sess.pair_code := by
        intro he
        have h2 := hc.2
        rw [← he, h] at h2
        exact hne (Option.some.inj h2).symm
      rw [alist_get_filter_ne _ _ _ hcc]
      exact h
    · rw [if_neg hc]
      exact h

theorem foldl_pruneOne_sessions_none (ids : List String) (k : String) :
    ∀ st : WalkieState, alist_get st.sessions k = none →
      alist_get (List.foldl walkiePruneOne st ids).sessions k = none := by
  induction ids with
  | nil => intro st h; exact h
  | cons i rest ih =>
    intro st h
    exact ih _ (walkiePruneOne_sessions_none st i k h)

theorem foldl_pruneOne_byPair_none (ids : List String) (c : String) :
    ∀ st : WalkieState, alist_get st.byPairCode c = none →
      alist_get (List.foldl walkiePruneOne st ids).byPairCode c = none := by
  induction ids with
  | nil => intro st h; exact h
  | cons i rest ih =>
    intro st h
    exact ih _ (walkiePruneOne_byPair_none st i c h)

theorem foldl_pruneOne_removes (ids : List String) (sid : String) :
    ∀ st : WalkieState, sid ∈ ids →
      alist_get (List.foldl walkiePruneOne st ids).sessions sid = none := by
  induction ids with
  | nil =>
    intro st h
    simp at h
  | cons i rest ih =>
    intro st h
    by_cases hi : sid = i
    · subst hi
      exact foldl_pruneOne_sessions_none rest sid _
        (walkiePruneOne_sessions_self st sid)
    · rcases List.mem_cons.mp h with h1 | h1
      · exact absurd h1 hi
      · exact ih _ h1

theorem foldl_pruneOne_byPair_removed (ids : List String) (sid c : String)
    (sess : WalkieSession) :
    ∀ st : WalkieState, sid ∈ ids →
      alist_get st.sessions sid = some sess →
      sess.pair_code = c → c ≠ "" →
      alist_get st.byPairCode c = some sid →
      alist_get (List.foldl walkiePruneOne st ids).byPairCode c = none := by
  induction ids with
  | nil =>
    intro st hmem _ _ _ _
    simp at hmem
  | cons i rest ih =>
    intro st hmem hget hcode hc0 hidx
    by_cases hi : sid = i
    · subst hi
      have h1 : alist_get (walkiePruneOne st sid).byPairCode c = none := by
        simp only [walkiePruneOne, hget]
        have hcond : sess.pair_code ≠ "" ∧
            alist_get st.byPairCode sess.pair_code = some sid := by
          constructor
          · rw [hcode]; exact hc0
          · rw [hcode]; exact hidx
        rw [if_pos hcond, hcode]
        exact alist_get_filter_self _ _
      exact foldl_pruneOne_byPair_none rest c _ h1
    · rcases List.mem_cons.mp hmem with h1 | h1
      · exact absurd h1 hi
      · have hne : i ≠ sid := fun he => hi he.symm
        have hget2 : alist_get (walkiePruneOne st i).sessions sid = some sess := by
          rw [walkiePruneOne_sessions_ne st i sid hi]
          exact hget
        have hidx2 : alist_get (walkiePruneOne st i).byPairCode c = some sid :=
          walkiePruneOne_byPair_keep st i c sid hidx hne
        exact ih _ h1 hget2 hcode hc0 hidx2

theorem foldl_pruneOne_events (entries : List (String × WalkieSession)) :
    ∀ st : WalkieState,
      (entries.map Prod.fst).Nodup →
      (∀ e ∈ entries, alist_get st.sessions e.1 = some e.2) →
      (List.foldl walkiePruneOne st (entries.map Prod.fst)).events =
        st.events ++
          List.replicate ((entries.filter (fun p => !p.2.closed)).length)
            (⟨"walkie_session_expired", "warn"⟩ : LogEvent) := by
  induction entries with
  | nil =>
    intro st _ _
    simp
  | cons e rest ih =>
    intro st hnd hall
    have hget : alist_get st.sessions e.1 = some e.2 :=
      hall e (List.mem_cons_self _ _)
    simp only [List.map_cons, List.nodup_cons] at hnd
    have hse : ∀ e2 ∈ rest,
        alist_get (walkiePruneOne st e.1).sessions e2.1 = some e2.2 := by
      intro e2 he2
      have hne : e2.1 ≠ e.1 := by
        intro hh
        have hm : e2.1 ∈ rest.map Prod.fst :=
          List.mem_map_of_mem Prod.fst he2
        rw [hh] at hm
        exact hnd.1 hm
      rw [walkiePruneOne_sessions_ne st e.1 e2.1 hne]
      exact hall e2 (List.mem_cons_of_mem _ he2)
    have hstep := ih (walkiePruneOne st e.1) hnd.2 hse
    show (List.foldl walkiePruneOne (walkiePruneOne st e.1)
      (rest.map Prod.fst)).events = _
    rw [hstep]
    have hev : (walkiePruneOne st e.1).events =
        if e.2.closed then st.events
        else st.events ++ [⟨"walkie_session_expired", "warn"⟩] := by
      simp only [walkiePruneOne, hget]
    rw [hev]
    by_cases hc : e.2.closed
    · rw [if_pos hc, List.filter_cons_of_neg (by simp [hc])]
    · rw [if_neg hc, List.filter_cons_of_pos (by simp [hc]),
        List.append_assoc]
      simp [List.replicate_succ]

theorem walkiePrune_removes_stale (now : Nat) (st : WalkieState)
    (sid : String) (sess : WalkieSession)
    (hget : alist_get st.sessions sid = some sess)
    (hstale : walkieSessionStale now sess = true) :
    alist_get (walkiePrune now st).sessions sid = none := by
  have hmem1 : (sid, sess) ∈ st.sessions := alist_get_mem _ _ _ hget
  have hmem2 : (sid, sess) ∈
      st.sessions.filter (fun p => walkieSessionStale now p.2) :=
    List.mem_filter.mpr ⟨hmem1, hstale⟩
  have hmem3 : sid ∈
      (st.sessions.filter (fun p => walkieSessionStale now p.2)).map
        Prod.fst :=
    List.mem_map_of_mem Prod.fst hmem2
  exact foldl_pruneOne_removes _ sid st hmem3

/-- Claim C5: for a session whose TTL has elapsed the authenticator answers
session_expired; the prune sweep removes every stale (closed or expired)
session from the session table and, when its non-empty pair code still
points at it, from the pair-code index; under distinct session ids the
sweep appends exactly one `walkie_session_expired` warning per swept
session that was not already closed; TTL elapsed implies stale; and after
any relay operation's prune, looking the swept session up again yields
session_not_found. -/
theorem c5_session_expiry :
    (∀ (now : Nat) (st : WalkieState) (sessionId token : JVal)
       (sidS : String) (sess : WalkieSession),
      pyStrip (pyStr (pyOr sessionId (.str ""))) = sidS →
      sidS ≠ "" →
      alist_get st.sessions sidS = some sess →
      sess.closed = false →
      0 < sess.expires_at → sess.expires_at < now →
      walkieAuth now st sessionId token = .authErr "session_expired") ∧
    (∀ (now : Nat) (sess : WalkieSession),
      0 < sess.expires_at → sess.expires_at < now →
      walkieSessionStale now sess = true) ∧
    (∀ (now : Nat) (st : WalkieState) (sid : String) (sess : WalkieSession),
      alist_get st.sessions sid = some sess →
      walkieSessionStale now sess = true →
      alist_get (walkiePrune now st).sessions sid = none) ∧
    (∀ (now : Nat) (st : WalkieState) (sid : String) (sess : WalkieSession),
      alist_get st.sessions sid = some sess →
      walkieSessionStale now sess = true →
      sess.pair_code ≠ "" →
      alist_get st.byPairCode sess.pair_code = some sid →
      alist_get (walkiePrune now st).byPairCode sess.pair_code = none) ∧
    (∀ (now : Nat) (st : WalkieState),
      (st.sessions.map Prod.fst).Nodup →
      (walkiePrune now st).events = st.events ++
        List.replicate
          (((st.sessions.filter (fun p => walkieSessionStale now p.2)).filter
            (fun p => !p.2.closed)).length)
          ⟨"walkie_session_expired", "warn"⟩) ∧
    (∀ (now : Nat) (st : WalkieState) (sid : String) (sess : WalkieSession)
       (token : JVal),
      pyStrip sid = sid →
      alist_get st.sessions sid = some sess →
      walkieSessionStale now sess = true →
      walkieAuth now (walkiePrune now st) (.str sid) token =
        .authErr "session_not_found") := by
  refine ⟨?_, ?_, ?_, ?_, ?_, ?_⟩
  · intro now st sessionId token sidS sess hsid hne hget hcl h1 h2
    simp only [walkieAuth, hsid]
    rw [if_neg hne, hget]
    show (if sess.closed = true then AuthResult.authErr "session_closed"
      else _) = _
    rw [if_neg (by simp [hcl])]
    rw [if_pos ⟨h1, h2⟩]
  · intro now sess h1 h2
    by_cases hc : sess.closed <;> simp [walkieSessionStale, hc, h1, h2]
  · intro now st sid sess hget hstale
    exact walkiePrune_removes_stale now st sid sess hget hstale
  · intro now st sid sess hget hstale hc0 hidx
    have hmem1 : (sid, sess) ∈ st.sessions := alist_get_mem _ _ _ hget
    have hmem2 : (sid, sess) ∈
        st.sessions.filter (fun p => walkieSessionStale now p.2) :=
      List.mem_filter.mpr ⟨hmem1, hstale⟩
    have hmem3 : sid ∈
        (st.sessions.filter (fun p => walkieSessionStale now p.2)).map
          Prod.fst :=
      List.mem_map_of_mem Prod.fst hmem2
    exact foldl_pruneOne_byPair_removed _ sid sess.pair_code sess st hmem3
      hget rfl hc0 hidx
  · intro now st hnd
    have hnd2 : ((st.sessions.filter
        (fun p => walkieSessionStale now p.2)).map Prod.fst).Nodup :=
      List.Nodup.sublist ((List.filter_sublist _).map Prod.fst) hnd
    have hall : ∀ e ∈ st.sessions.filter (fun p => walkieSessionStale now p.2),
        alist_get st.sessions e.1 = some e.2 := by
      intro e he
      exact alist_get_of_mem_nodup _ _ _ hnd (List.mem_of_mem_filter he)
    exact foldl_pruneOne_events _ st hnd2 hall
  · intro now st sid sess token hstrip hget hstale
    by_cases hsid0 : sid = ""
    · subst hsid0
      rfl
    · have hnone : alist_get (walkiePrune now st).sessions sid = none :=
        walkiePrune_removes_stale now st sid sess hget hstale
      simp only [walkieAuth, pyOr_str_empty, pyStr, hstrip]
      rw [if_neg hsid0, hnone]

/-- Claim C5, witness: against the expired-session fixture at time 500
(past its `expires_at` of 400), authentication answers session_expired,
the prune sweep drops the session from the table, logs exactly one
expired warning, and a post-prune authentication answers
session_not_found. -/
theorem c5_witness :
    (walkieAuth 500 wStExpired (.str "s2") (.str "x") =
      .authErr "session_expired") ∧
    walkieSessionStale 500 wSessExpired = true ∧
    alist_get (walkiePrune 500 wStExpired).sessions "s2" = none ∧
    alist_get (walkiePrune 500 wStExpired).byPairCode
      wSessExpired.pair_code = none ∧
    ((walkiePrune 500 wStExpired).events = wStExpired.events ++
      List.replicate
        (((wStExpired.sessions.filter
          (fun p => walkieSessionStale 500 p.2)).filter
          (fun p => !p.2.closed)).length)
        ⟨"walkie_session_expired", "warn"⟩) ∧
    (walkieAuth 500 (walkiePrune 500 wStExpired) (.str "s2") (.str "rtok2") =
      .authErr "session_not_found") := by
  refine ⟨?_, ?_, ?_, ?_, ?_, ?_⟩
  · exact c5_session_expiry.1 500 wStExpired (.str "s2") (.str "x") "s2"
      wSessExpired rfl (by decide) rfl rfl (by decide) (by decide)
  · exact c5_session_expiry.2.1 500 wSessExpired (by decide) (by decide)
  · exact c5_session_expiry.2.2.1 500 wStExpired "s2" wSessExpired rfl rfl
  · exact c5_session_expiry.2.2.2.1 500 wStExpired "s2" wSessExpired rfl rfl
      (by decide) rfl
  · exact c5_session_expiry.2.2.2.2.1 500 wStExpired (by decide)
  · exact c5_session_expiry.2.2.2.2.2 500 wStExpired "s2" wSessExpired
      (.str "rtok2") rfl rfl rfl

/-- Claim C6: a successfully authenticated pull whose role queue is
non-empty returns the whole pending batch and atomically stores the
session back with that queue cleared (so the batch cannot be delivered
again); an authenticated pull on an empty queue returns the ok/empty
timeout response and never an error; and the poll timeout is clamped to
the interval [100, 25000] milliseconds. -/
theorem c6_pull_delivery :
    (∀ (now : Nat) (st : WalkieState) (sessionId token : JVal)
       (sid role : String) (sess : WalkieSession) (x : WalkieSignal)
       (xs : List WalkieSignal),
      walkieAuth now (walkiePrune now st) sessionId token =
        .authOk sid sess role →
      (if role = "receiver" then sess.sigReceiver else sess.sigTransmitter) =
        x :: xs →
      walkieSignalPull now st sessionId token =
        ({ walkiePrune now st with
            sessions := alist_set (walkiePrune now st).sessions sid
              (setLastSeen
                (if role = "receiver" then { sess with sigReceiver := [] }
                 else { sess with sigTransmitter := [] }) role now) },
         .okDelivered role (x :: xs)) ∧
      alist_get (walkieSignalPull now st sessionId token).1.sessions sid =
        some (setLastSeen
          (if role = "receiver" then { sess with sigReceiver := [] }
           else { sess with sigTransmitter := [] }) role now) ∧
      (if role = "receiver" then
        (setLastSeen
          (if role = "receiver" then { sess with sigReceiver := [] }
           else { sess with sigTransmitter := [] }) role now).sigReceiver
       else
        (setLastSeen
          (if role = "receiver" then { sess with sigReceiver := [] }
           else { sess with sigTransmitter := [] }) role now).sigTransmitter)
        = []) ∧
    (∀ (now : Nat) (st : WalkieState) (sessionId token : JVal)
       (sid role : String) (sess : WalkieSession),
      walkieAuth now (walkiePrune now st) sessionId token =
        .authOk sid sess role →
      (if role = "receiver" then sess.sigReceiver else sess.sigTransmitter) =
        [] →
      walkieSignalPull now st sessionId token =
        (walkiePrune now st, .okEmptyTimeout)) ∧
    (∀ raw : Option Int,
      100 ≤ clampPullTimeout raw ∧ clampPullTimeout raw ≤ 25000) := by
  refine ⟨?_, ?_, ?_⟩
  · intro now st sessionId token sid role sess x xs hauth hq
    have hpull : walkieSignalPull now st sessionId token =
        ({ walkiePrune now st with
            sessions := alist_set (walkiePrune now st).sessions sid
              (setLastSeen
                (if role = "receiver" then { sess with sigReceiver := [] }
                 else { sess with sigTransmitter := [] }) role now) },
         .okDelivered role (x :: xs)) := by
      simp only [walkieSignalPull, hauth, hq]
    refine ⟨hpull, ?_, ?_⟩
    · rw [hpull]
      exact alist_get_set_self _ _ _
    · by_cases hr : role = "receiver" <;> simp [hr, setLastSeen]
  · intro now st sessionId token sid role sess hauth hq
    simp only [walkieSignalPull, hauth, hq]
  · intro raw
    refine ⟨le_max_left _ _, max_le (by norm_num) (min_le_left _ _)⟩

/-- Claim C6, witness: against the live session fixture, the transmitter
pushes one offer signal for the receiver; the receiver's first pull
returns exactly that one message, and a second pull before any new push
gets the ok/empty timeout response; timeouts of 99 and of a missing
parameter clamp into [100, 25000]. -/
theorem c6_witness :
    ((walkieSignalPull 600
        (walkieSignalPush 500 wStLive
          (JVal.obj [("session_id", .str "s1"), ("token", .str "ttok"),
            ("to", .str "receiver"), ("type", .str "offer"),
            ("payload", .str "sdp")])).1
        (.str "s1") (.str "rtok")).2 =
      .okDelivered "receiver"
        [⟨"offer", "transmitter", "receiver", .str "sdp", 500⟩]) ∧
    ((walkieSignalPull 700
        (walkieSignalPull 600
          (walkieSignalPush 500 wStLive
            (JVal.obj [("session_id", .str "s1"), ("token", .str "ttok"),
              ("to", .str "receiver"), ("type", .str "offer"),
              ("payload", .str "sdp")])).1
          (.str "s1") (.str "rtok")).1
        (.str "s1") (.str "rtok")).2 = .okEmptyTimeout) ∧
    (100 ≤ clampPullTimeout (some 99) ∧ clampPullTimeout (some 99) ≤ 25000) ∧
    (100 ≤ clampPullTimeout none ∧ clampPullTimeout none ≤ 25000) := by
  refine ⟨?_, ?_, ?_, ?_⟩
  · rw [(c6_pull_delivery.1 600
      (walkieSignalPush 500 wStLive
        (JVal.obj [("session_id", .str "s1"), ("token", .str "ttok"),
          ("to", .str "receiver"), ("type", .str "offer"),
          ("payload", .str "sdp")])).1
      (.str "s1") (.str "rtok") "s1" "receiver"
      ⟨"s1", "1234", "log1", "rtok", some "ttok", 0, 0, false,
        [⟨"offer", "transmitter", "receiver", .str "sdp", 500⟩], [], none,
        some 500⟩
      ⟨"offer", "transmitter", "receiver", .str "sdp", 500⟩ [] rfl rfl).1]
  · rw [c6_pull_delivery.2.1 700
      (walkieSignalPull 600
        (walkieSignalPush 500 wStLive
          (JVal.obj [("session_id", .str "s1"), ("token", .str "ttok"),
            ("to", .str "receiver"), ("type", .str "offer"),
            ("payload", .str "sdp")])).1
        (.str "s1") (.str "rtok")).1
      (.str "s1") (.str "rtok") "s1" "receiver"
      ⟨"s1", "1234", "log1", "rtok", some "ttok", 0, 0, false, [], [],
        some 600, some 500⟩ rfl rfl]
  · exact c6_pull_delivery.2.2 (some 99)
  · exact c6_pull_delivery.2.2 none
